import Mathlib

/-!
Shallow embedding of the work-sheet generation and state-transition engine of
`database.py` (class `PostgresDatabaseManager`): the bulk loader
(`importar_csv`), the eligibility filter / batch partitioner / claim committer
(`gerar_folhas_trabalho`) and the claim reset (`resetar_estado`).

The `bd` table is modelled as a `List Registro`.  SQL string normalisation
(`UPPER`, `LOWER`, `TRIM`) and Python `str.strip` / `str.upper` / `str.lower`
are modelled by executable functions over `String.data`; `NULL` text values
are represented by the empty string (the SQL predicates of the source always
treat `NULL` and `''` alike through `IS NULL OR TRIM(..) = ''` or through
normalisation).  Numeric columns are modelled as `Int`; their values are
never inspected by the engine.
-/

namespace FolhaTrab

/-- Characters stripped by SQL `TRIM` / Python `str.strip` (whitespace). -/
def trimL (l : List Char) : List Char :=
  ((l.dropWhile Char.isWhitespace).reverse.dropWhile Char.isWhitespace).reverse

/-- SQL `TRIM(s)` / Python `s.strip()`. -/
def trim (s : String) : String := ⟨trimL s.data⟩

/-- SQL `UPPER(s)` / Python `s.upper()`. -/
def upperS (s : String) : String := ⟨s.data.map Char.toUpper⟩

/-- SQL `LOWER(s)` / Python `s.lower()`. -/
def lowerS (s : String) : String := ⟨s.data.map Char.toLower⟩

/-- SQL `UPPER(TRIM(s))` / Python `s.strip().upper()`. -/
def normUpper (s : String) : String := upperS (trim s)

/-- SQL `LOWER(TRIM(s))` / Python `s.strip().lower()`. -/
def normLower (s : String) : String := lowerS (trim s)

/-- One row of the `bd` table (`init_db` in `database.py`).  The columns the
engine never reads nor writes individually (e.g. `contador`, `leitura`,
`situacao`, …) are represented by the subset below together with the numeric
columns; every omitted column behaves exactly like `prod`. -/
structure Registro where
  cil : String
  prod : String
  nib : String
  seq : String
  localidade : String
  pt : String
  desv : String
  est_contr : String
  anomalia : String
  criterio : String
  desc_tp_cli : String
  sit_div : String
  est_inspec : String
  qtd : Int
  valor : Int
  lat : Int
  long : Int
  estado : String
deriving Repr, DecidableEq

/-- The `MAPEAMENTO_CRITERIOS` dictionary of `PostgresDatabaseManager`:
recognised criterion axis names and the column each resolves to. -/
def MAPEAMENTO_CRITERIOS : String → Option String
  | "Criterio" => some "criterio"
  | "Anomalia" => some "anomalia"
  | "DESC_TP_CLI" => some "desc_tp_cli"
  | "EST_CTR" => some "est_contr"
  | "sit_div" => some "sit_div"
  | "desv" => some "desv"
  | "est_inspec" => some "est_inspec"
  | _ => none

/-- Value of a named column of a row (only the columns that
`MAPEAMENTO_CRITERIOS` can resolve to are ever requested). -/
def coluna (r : Registro) : String → String
  | "criterio" => r.criterio
  | "anomalia" => r.anomalia
  | "desc_tp_cli" => r.desc_tp_cli
  | "est_contr" => r.est_contr
  | "sit_div" => r.sit_div
  | "desv" => r.desv
  | "est_inspec" => r.est_inspec
  | _ => ""

/-- The condition `LOWER(TRIM(estado)) != 'prog'` used by both the selection
query and every claim update of `gerar_folhas_trabalho`. -/
def estadoNaoProg (r : Registro) : Bool :=
  normLower r.estado != "prog"

/-- The optional criterion condition of `gerar_folhas_trabalho`: when both
`criterio_tipo` and `criterio_valor` are truthy and the axis resolves through
`MAPEAMENTO_CRITERIOS`, add `UPPER(TRIM(col)) = criterio_valor.strip().upper()`;
an unrecognised axis is silently skipped (`if coluna_criterio:`). -/
def criterioCond (criterio_tipo criterio_valor : String) (r : Registro) : Bool :=
  if criterio_tipo == "" || criterio_valor == "" then true
  else
    match MAPEAMENTO_CRITERIOS criterio_tipo with
    | some c => normUpper (coluna r c) == normUpper criterio_valor
    | none => true

/-- The mode-specific condition of the selection query: `cil = ANY(cils)` for
`AVULSO` with a non-empty list, else `UPPER(TRIM(pt/localidade)) = valor`
when `valor_selecionado` is truthy. -/
def grupoCondSelecao (tipo_folha valor_selecionado : String) (cils_validos : List String)
    (r : Registro) : Bool :=
  if tipo_folha == "AVULSO" && !cils_validos.isEmpty then
    cils_validos.contains r.cil
  else if valor_selecionado != "" then
    (if tipo_folha == "PT" then normUpper r.pt else normUpper r.localidade) ==
      normUpper valor_selecionado
  else true

/-- Full `WHERE` clause of the selection query of `gerar_folhas_trabalho`. -/
def condicaoSelecao (tipo valor : String) (cils : List String) (ct cv : String)
    (r : Registro) : Bool :=
  estadoNaoProg r && criterioCond ct cv r && grupoCondSelecao tipo valor cils r

/-- The blank test of the `ORDER BY` clause: `x IS NULL OR TRIM(x) = ''`. -/
def vazia (s : String) : Bool := trim s == ""

/-- Sort rank of the blank test: blank values sort last. -/
def rank (s : String) : Nat := if vazia s then 1 else 0

/-- Strict lexicographic comparison of character lists by code point, the
collation model for the SQL `ORDER BY` on text columns. -/
def lexLt : List Char → List Char → Bool
  | [], [] => false
  | [], _ :: _ => true
  | _ :: _, [] => false
  | a :: as, b :: bs =>
    if a.toNat < b.toNat then true
    else if b.toNat < a.toNat then false
    else lexLt as bs

/-- Strict comparison of strings by code point. -/
def strLt (s t : String) : Bool := lexLt s.data t.data

/-- The `ORDER BY` key of `gerar_folhas_trabalho` as a non-strict total
comparison: blank `seq` last, then `seq`, then blank `nib` last, then `nib`. -/
def ordemSQL (a b : Registro) : Bool :=
  if rank a.seq < rank b.seq then true
  else if rank b.seq < rank a.seq then false
  else if strLt a.seq b.seq then true
  else if strLt b.seq a.seq then false
  else if rank a.nib < rank b.nib then true
  else if rank b.nib < rank a.nib then false
  else if strLt a.nib b.nib then true
  else if strLt b.nib a.nib then false
  else true

/-- Insert a row into a list sorted by `ordemSQL`. -/
def insereOrdenado (r : Registro) : List Registro → List Registro
  | [] => [r]
  | x :: xs => if ordemSQL r x then r :: x :: xs else x :: insereOrdenado r xs

/-- Executable model of the SQL `ORDER BY` of `gerar_folhas_trabalho`: a sort
of the filtered rows by `ordemSQL` (the backend promises some ordering
compatible with the key; ties in the full key have equal `nib`, so every
compatible order yields the same batch partition). -/
def ordenarSQL : List Registro → List Registro
  | [] => []
  | x :: xs => insereOrdenado x (ordenarSQL xs)

/-- The selection query of `gerar_folhas_trabalho`:
`SELECT * FROM bd WHERE … ORDER BY …` (`pd.read_sql_query`). -/
def consultaElegiveis (bd : List Registro) (tipo valor : String) (cils : List String)
    (ct cv : String) : List Registro :=
  ordenarSQL (bd.filter (condicaoSelecao tipo valor cils ct cv))

/-- The pandas cleanup `df['nib'] = df['nib'].fillna('').astype(str).str.strip()`
applied to each row of the query result. -/
def limparNib (r : Registro) : Registro := { r with nib := trim r.nib }

/-- First-seen-order deduplication (pandas `Series.unique`, Python
`set` subtraction), with an accumulator of already-seen values. -/
def dedupAcum (vistos : List String) : List String → List String
  | [] => []
  | x :: xs =>
    if vistos.contains x then dedupAcum vistos xs
    else x :: dedupAcum (x :: vistos) xs

/-- The slice of `nib` groups assigned to folha number `i` (0-based):
`nibs_unicos[i * quantidade_nibs : (i + 1) * quantidade_nibs]`. -/
def nibsDaFolha (nibsU : List String) (quantidade_nibs i : Nat) : List String :=
  (nibsU.drop (i * quantidade_nibs)).take quantidade_nibs

/-- The `WHERE` clause of the per-folha claim update of
`gerar_folhas_trabalho`: `nib = ANY(nibs)` plus `estado` not claimed, plus the
criterion condition, plus — only for the `PT` and `LOCALIDADE` modes — the
grouping condition.  The `AVULSO` identifier list is not re-applied here. -/
def predUpdate (tipo valor ct cv : String) (nibs : List String) (r : Registro) : Bool :=
  nibs.contains r.nib && estadoNaoProg r && criterioCond ct cv r &&
    (if tipo == "PT" || tipo == "LOCALIDADE" then
      (if tipo == "PT" then normUpper r.pt else normUpper r.localidade) == normUpper valor
    else true)

/-- Execute `UPDATE bd SET estado = 'prog' WHERE p` and return the new table
together with the affected row count (`result.rowcount`). -/
def aplicarUpdateProg (bd : List Registro) (p : Registro → Bool) : List Registro × Nat :=
  (bd.map fun r => if p r then { r with estado := "prog" } else r, bd.countP p)

/-- The `for i in range(quantidade_folhas)` loop of `gerar_folhas_trabalho`:
for each folha build the slice of `nib` groups, extract the folha rows from
the in-memory frame, and run the claim update against the (evolving) table.
Returns the folhas, the accumulated affected count, and the updated table. -/
def cicloFolhas (df : List Registro) (nibsU : List String) (tipo valor ct cv : String)
    (q : Nat) : Nat → Nat → List Registro → List (List Registro) × Nat × List Registro
  | 0, _, bd => ([], 0, bd)
  | Nat.succ n, i, bd =>
    let nibs := nibsDaFolha nibsU q i
    let folha := df.filter fun r => nibs.contains r.nib
    let passo := aplicarUpdateProg bd (predUpdate tipo valor ct cv nibs)
    let resto := cicloFolhas df nibsU tipo valor ct cv q n (i + 1) passo.1
    (folha :: resto.1, passo.2 + resto.2.1, resto.2.2)

/-- The `AVULSO` unmatched-identifier computation of `gerar_folhas_trabalho`:
`list(set(cils_validos) - set(df['cil'].unique()))`, modelled in first-seen
order (the Python set order is unspecified). -/
def cilsNaoEncontradosCalc (tipo_folha : String) (cils_validos : List String)
    (df : List Registro) : List String :=
  if tipo_folha == "AVULSO" && !cils_validos.isEmpty then
    dedupAcum [] (cils_validos.filter fun c => !((df.map (·.cil)).contains c))
  else []

/-- Result of one `gerar_folhas_trabalho` call: the optional concatenation of
folhas (`None` when nothing was generated), the unmatched identifiers of the
`AVULSO` mode, the reported total affected count, and the table afterwards. -/
structure ResultadoGeracao where
  folhas : Option (List (List Registro))
  cilsNaoEncontrados : List String
  totalAtualizados : Nat
  bd : List Registro
deriving Repr, DecidableEq

/-- Shallow embedding of `PostgresDatabaseManager.gerar_folhas_trabalho`.
The `FOLHA` numbering column is represented by the position of each folha in
the returned list (folha `k` is entry `k - 1`).  The order of
`list(set(cils_validos) - cils_encontrados)` is backend-chosen in the source;
the model fixes first-seen order, and no claim depends on that order. -/
def gerar_folhas_trabalho (bd : List Registro) (tipo_folha valor_selecionado : String)
    (quantidade_folhas quantidade_nibs : Nat) (cils_validos : List String)
    (criterio_tipo criterio_valor : String) : ResultadoGeracao :=
  let df := consultaElegiveis bd tipo_folha valor_selecionado cils_validos
    criterio_tipo criterio_valor
  let restantes := cilsNaoEncontradosCalc tipo_folha cils_validos df
  if df.isEmpty then ⟨none, restantes, 0, bd⟩
  else
    let dfn := df.map limparNib
    let nibsU := dedupAcum [] (dfn.map (·.nib))
    if nibsU.length == 0 then ⟨none, restantes, 0, bd⟩
    else
      let folhasPossiveis := (nibsU.length + quantidade_nibs - 1) / quantidade_nibs
      let nFolhas := min quantidade_folhas folhasPossiveis
      let resultado := cicloFolhas dfn nibsU tipo_folha valor_selecionado
        criterio_tipo criterio_valor quantidade_nibs nFolhas 0 bd
      if resultado.1.isEmpty then ⟨none, restantes, resultado.2.1, resultado.2.2⟩
      else ⟨some resultado.1, restantes, resultado.2.1, resultado.2.2⟩

/-- Shallow embedding of `PostgresDatabaseManager.resetar_estado`: sets
`estado` to the empty string wherever `LOWER(TRIM(estado)) = 'prog'` holds
together with the scope condition, returning success, the affected row count
and the table afterwards.  For an unrecognised `tipo` the source returns
`(False, "Tipo de reset inválido.")` without touching the table; the model
returns `(false, 0, bd)`, representing the error message by the zero count. -/
def resetar_estado (bd : List Registro) (tipo valor : String) : Bool × Nat × List Registro :=
  let valorSql := normUpper valor
  if tipo == "PT" then
    let p := fun r => (normLower r.estado == "prog") && (normUpper r.pt == valorSql)
    (true, bd.countP p, bd.map fun r => if p r then { r with estado := "" } else r)
  else if tipo == "LOCALIDADE" then
    let p := fun r => (normLower r.estado == "prog") && (normUpper r.localidade == valorSql)
    (true, bd.countP p, bd.map fun r => if p r then { r with estado := "" } else r)
  else if tipo == "AVULSO" then
    let p := fun r => normLower r.estado == "prog"
    (true, bd.countP p, bd.map fun r => if p r then { r with estado := "" } else r)
  else (false, 0, bd)

/-- The pandas cleanup of `importar_csv` applied to one parsed row: every
textual column is stripped, `criterio`, `pt` and `localidade` are additionally
uppercased and `estado` lowercased; numeric columns pass through (their
coercion happens before this model's input). -/
def normalizarImportacao (r : Registro) : Registro :=
  { cil := trim r.cil
    prod := trim r.prod
    nib := trim r.nib
    seq := trim r.seq
    localidade := upperS (trim r.localidade)
    pt := upperS (trim r.pt)
    desv := trim r.desv
    est_contr := trim r.est_contr
    anomalia := trim r.anomalia
    criterio := upperS (trim r.criterio)
    desc_tp_cli := trim r.desc_tp_cli
    sit_div := trim r.sit_div
    est_inspec := trim r.est_inspec
    qtd := r.qtd
    valor := r.valor
    lat := r.lat
    long := r.long
    estado := lowerS (trim r.estado) }

/-- The join condition of the preservation update of `importar_csv`:
`new.cil = old.cil AND old.estado = 'prog'` (note: the old `estado` is
compared raw, without `LOWER(TRIM(..))`). -/
def preservadoProg (bd_antigo : List Registro) (n : Registro) : Bool :=
  bd_antigo.any fun antigo => antigo.cil == n.cil && antigo.estado == "prog"

/-- Shallow embedding of the `BD` branch of
`PostgresDatabaseManager.importar_csv` after the column-count check passed:
normalise the parsed rows, run the preservation update against the previous
table contents, and replace the table; returns the new table and the
reported preserved row count (`result.rowcount` of the update, i.e. the
number of new rows affected). -/
def importar_csv (bd_antigo : List Registro) (dados_novos : List Registro) :
    List Registro × Nat :=
  let temp := dados_novos.map normalizarImportacao
  (temp.map fun n => if preservadoProg bd_antigo n then { n with estado := "prog" } else n,
   temp.countP (preservadoProg bd_antigo))

/-- Result of the fallible model of `gerar_folhas_trabalho`: as
`ResultadoGeracao`, plus whether the call was aborted by an exception. -/
structure ResultadoTx where
  folhas : Option (List (List Registro))
  cilsNaoEncontrados : List String
  totalAtualizados : Nat
  bd : List Registro
  abortado : Bool
deriving Repr, DecidableEq

/-- The folha loop with failure injection: statement number `i + 1` is the
claim update of folha `i`; when it raises, the loop yields `none`. -/
def cicloFolhasTx (falhaEm : Option Nat) (df : List Registro) (nibsU : List String)
    (tipo valor ct cv : String) (q : Nat) :
    Nat → Nat → List Registro → Option (List (List Registro) × Nat × List Registro)
  | 0, _, bd => some ([], 0, bd)
  | Nat.succ n, i, bd =>
    if falhaEm == some (i + 1) then none
    else
      let nibs := nibsDaFolha nibsU q i
      let folha := df.filter fun r => nibs.contains r.nib
      let passo := aplicarUpdateProg bd (predUpdate tipo valor ct cv nibs)
      match cicloFolhasTx falhaEm df nibsU tipo valor ct cv q n (i + 1) passo.1 with
      | none => none
      | some resto => some (folha :: resto.1, passo.2 + resto.2.1, resto.2.2)

/-- Fallible model of `gerar_folhas_trabalho`, reflecting its transaction
structure: all statements run on one connection whose work is only committed
by the single `conn.commit()` after the loop; an exception anywhere inside
the `try` block (statement number `0` is the `read_sql_query`, statement
`i + 1` the update of folha `i`) reaches the `except` handler, the
uncommitted work is rolled back when the connection closes, and the call
returns `(None, [])` leaving the stored table untouched. -/
def gerar_folhas_trabalho_tx (falhaEm : Option Nat) (bd : List Registro)
    (tipo_folha valor_selecionado : String) (quantidade_folhas quantidade_nibs : Nat)
    (cils_validos : List String) (criterio_tipo criterio_valor : String) : ResultadoTx :=
  if falhaEm == some 0 then ⟨none, [], 0, bd, true⟩
  else
    let df := consultaElegiveis bd tipo_folha valor_selecionado cils_validos
      criterio_tipo criterio_valor
    let restantes := cilsNaoEncontradosCalc tipo_folha cils_validos df
    if df.isEmpty then ⟨none, restantes, 0, bd, false⟩
    else
      let dfn := df.map limparNib
      let nibsU := dedupAcum [] (dfn.map (·.nib))
      if nibsU.length == 0 then ⟨none, restantes, 0, bd, false⟩
      else
        let folhasPossiveis := (nibsU.length + quantidade_nibs - 1) / quantidade_nibs
        let nFolhas := min quantidade_folhas folhasPossiveis
        match cicloFolhasTx falhaEm dfn nibsU tipo_folha valor_selecionado
          criterio_tipo criterio_valor quantidade_nibs nFolhas 0 bd with
        | none => ⟨none, [], 0, bd, true⟩
        | some resultado =>
          if resultado.1.isEmpty then ⟨none, restantes, resultado.2.1, resultado.2.2, false⟩
          else ⟨some resultado.1, restantes, resultado.2.1, resultado.2.2, false⟩

/-- Arguments of one `gerar_folhas_trabalho` call, for reasoning about call
sequences. -/
structure ChamadaGeracao where
  tipo : String
  valor : String
  quantidade_folhas : Nat
  quantidade_nibs : Nat
  cils : List String
  criterio_tipo : String
  criterio_valor : String
deriving Repr, DecidableEq

/-- Run a sequence of `gerar_folhas_trabalho` calls against the store, with
no interleaved resets or imports; returns the sum of the reported
affected counts and the final table. -/
def executarChamadas (bd : List Registro) : List ChamadaGeracao → Nat × List Registro
  | [] => (0, bd)
  | c :: cs =>
    let r := gerar_folhas_trabalho bd c.tipo c.valor c.quantidade_folhas
      c.quantidade_nibs c.cils c.criterio_tipo c.criterio_valor
    let resto := executarChamadas r.bd cs
    (r.totalAtualizados + resto.1, resto.2)

end FolhaTrab

namespace FolhaTrab

/-- Row with every textual column empty and every numeric column zero, used
as the base of concrete instances. -/
def regBase : Registro :=
  { cil := "", prod := "", nib := "", seq := "", localidade := "", pt := "", desv := "",
    est_contr := "", anomalia := "", criterio := "", desc_tp_cli := "", sit_div := "",
    est_inspec := "", qtd := 0, valor := 0, lat := 0, long := 0, estado := "" }

end FolhaTrab

namespace FolhaTrab

/-- A row is claimed when its `estado` normalises to the sentinel `"prog"`
(case- and whitespace-insensitive). -/
def Reclamado (r : Registro) : Prop := normLower r.estado = "prog"

/-- Blank test of the ordering contract, as a proposition. -/
def Vazia (s : String) : Prop := trim s = ""

/-- Strict code-point ordering of strings, as a proposition. -/
def StrLtP (s t : String) : Prop :=
  List.Lex (fun a b : Char => a.toNat < b.toNat) s.data t.data

/-- Ordering contract of the Eligibility Filter: primarily by `seq` with
blank values last, secondarily by `nib` with blank values last. -/
def OrdemFolha (a b : Registro) : Prop :=
  (¬ Vazia a.seq ∧ Vazia b.seq) ∨
  ((Vazia a.seq ↔ Vazia b.seq) ∧
    (StrLtP a.seq b.seq ∨ (a.seq = b.seq ∧
      ((¬ Vazia a.nib ∧ Vazia b.nib) ∨
        ((Vazia a.nib ↔ Vazia b.nib) ∧ (StrLtP a.nib b.nib ∨ a.nib = b.nib))))))

/-- Criterion Constraint satisfaction, as a proposition: whenever the
constraint is present and its axis resolves to a column, the column value
equals the constraint value after normalisation. -/
def CriterioP (ct cv : String) (r : Registro) : Prop :=
  ∀ c, ct ≠ "" → cv ≠ "" → MAPEAMENTO_CRITERIOS ct = some c →
    normUpper (coluna r c) = normUpper cv

/-- Grouping predicate of the Eligibility Filter, as a proposition:
identifier-list membership for `AVULSO` with a non-empty list, otherwise
equality of the grouping axis with the supplied value (normalised) whenever
a value was supplied. -/
def GrupoSelecaoP (tipo valor : String) (cils : List String) (r : Registro) : Prop :=
  if tipo = "AVULSO" ∧ cils ≠ [] then r.cil ∈ cils
  else if valor ≠ "" then
    (if tipo = "PT" then normUpper r.pt else normUpper r.localidade) = normUpper valor
  else True

/-- Scope predicate of `resetar_estado`, as a proposition. -/
def EscopoReset (tipo valor : String) (r : Registro) : Prop :=
  (tipo = "PT" → normUpper r.pt = normUpper valor) ∧
  (tipo = "LOCALIDADE" → normUpper r.localidade = normUpper valor)

/-- Two rows agree on every column except possibly `estado`. -/
def MesmoExcetoEstado (a b : Registro) : Prop :=
  a.cil = b.cil ∧ a.prod = b.prod ∧ a.nib = b.nib ∧ a.seq = b.seq ∧
  a.localidade = b.localidade ∧ a.pt = b.pt ∧ a.desv = b.desv ∧
  a.est_contr = b.est_contr ∧ a.anomalia = b.anomalia ∧ a.criterio = b.criterio ∧
  a.desc_tp_cli = b.desc_tp_cli ∧ a.sit_div = b.sit_div ∧ a.est_inspec = b.est_inspec ∧
  a.qtd = b.qtd ∧ a.valor = b.valor ∧ a.lat = b.lat ∧ a.long = b.long

end FolhaTrab

namespace FolhaTrab

instance instDecReclamado (r : Registro) : Decidable (Reclamado r) := by
  unfold Reclamado
  infer_instance

instance instDecVazia (s : String) : Decidable (Vazia s) := by
  unfold Vazia
  infer_instance

instance instDecEscopoReset (tipo valor : String) (r : Registro) :
    Decidable (EscopoReset tipo valor r) := by
  unfold EscopoReset
  infer_instance

instance instDecGrupoSelecaoP (tipo valor : String) (cils : List String) (r : Registro) :
    Decidable (GrupoSelecaoP tipo valor cils r) := by
  unfold GrupoSelecaoP
  infer_instance

/-- The cleaned in-memory frame of `gerar_folhas_trabalho`: the query result
with the `nib` column stripped. -/
def dfLimpo (bd : List Registro) (tipo valor : String) (cils : List String)
    (ct cv : String) : List Registro :=
  (consultaElegiveis bd tipo valor cils ct cv).map limparNib

/-- `nibs_unicos` of `gerar_folhas_trabalho`: distinct stripped `nib` values
of the eligible frame in first-seen order (blank included). -/
def nibsUnicosDe (bd : List Registro) (tipo valor : String) (cils : List String)
    (ct cv : String) : List String :=
  dedupAcum [] ((dfLimpo bd tipo valor cils ct cv).map (·.nib))

/-- The number of folhas emitted by `gerar_folhas_trabalho`:
`min(quantidade_folhas, ceil(total_nibs / quantidade_nibs))`. -/
def numFolhas (bd : List Registro) (tipo valor : String) (cils : List String)
    (ct cv : String) (m q : Nat) : Nat :=
  min m (((nibsUnicosDe bd tipo valor cils ct cv).length + q - 1) / q)

/-- Store fixture for the explicit-list scenario: six unclaimed rows whose
identifiers are `"C1"` … `"C6"`. -/
def bdC8 : List Registro :=
  [{ regBase with cil := "C1" }, { regBase with cil := "C2" },
   { regBase with cil := "C3" }, { regBase with cil := "C4" },
   { regBase with cil := "C5" }, { regBase with cil := "C6" }]

/-- Ten supplied identifiers, of which only the first six match `bdC8`. -/
def cilsC8 : List String :=
  ["C1", "C2", "C3", "C4", "C5", "C6", "C7", "C8", "C9", "C10"]

/-- Store fixture for the partition scenario: three unclaimed rows in zone
`"Z"` across the three sub-units `"NA"`, `"NB"`, `"NC"`. -/
def bdC2 : List Registro :=
  [{ regBase with cil := "A", nib := "NA", pt := "Z" },
   { regBase with cil := "B", nib := "NB", pt := "Z" },
   { regBase with cil := "C", nib := "NC", pt := "Z" }]

/-- Store fixture for the transaction scenario: one unclaimed row. -/
def bdC10 : List Registro :=
  [{ regBase with cil := "A", nib := "NA", pt := "Z" }]

theorem char_toNat_inj {a b : Char} (h : a.toNat = b.toNat) : a = b :=
  Char.ext (UInt32.toNat.inj h)

theorem stringDataInj {s t : String} (h : s.data = t.data) : s = t := by
  cases s
  cases t
  exact congrArg String.mk h

theorem lexLt_irrefl : ∀ a : List Char, lexLt a a = false
  | [] => rfl
  | a :: as => by simp [lexLt, lexLt_irrefl as]

theorem lexLt_conn : ∀ a b : List Char, lexLt a b = false → lexLt b a = false → a = b
  | [], [], _, _ => rfl
  | [], _ :: _, h, _ => by simp [lexLt] at h
  | _ :: _, [], _, h => by simp [lexLt] at h
  | a :: as, b :: bs, h1, h2 => by
    unfold lexLt at h1 h2
    by_cases hab : a.toNat < b.toNat
    · rw [if_pos hab] at h1
      exact absurd h1 (by simp)
    · by_cases hba : b.toNat < a.toNat
      · rw [if_pos hba] at h2
        exact absurd h2 (by simp)
      · have hv : a = b := char_toNat_inj (by omega)
        rw [if_neg hab, if_neg hba] at h1
        rw [if_neg hba, if_neg hab] at h2
        rw [hv, lexLt_conn as bs h1 h2]

theorem lexLt_trans : ∀ a b c : List Char,
    lexLt a b = true → lexLt b c = true → lexLt a c = true
  | [], [], _, h1, _ => by simp [lexLt] at h1
  | [], _ :: _, [], _, h2 => by simp [lexLt] at h2
  | [], _ :: _, _ :: _, _, _ => by simp [lexLt]
  | _ :: _, [], _, h1, _ => by simp [lexLt] at h1
  | _ :: _, _ :: _, [], _, h2 => by simp [lexLt] at h2
  | a :: as, b :: bs, c :: cs, h1, h2 => by
    unfold lexLt at h1 h2 ⊢
    by_cases hab : a.toNat < b.toNat
    · by_cases hbc : b.toNat < c.toNat
      · rw [if_pos (show a.toNat < c.toNat by omega)]
      · by_cases hcb : c.toNat < b.toNat
        · rw [if_neg hbc, if_pos hcb] at h2
          exact absurd h2 (by simp)
        · rw [if_pos (show a.toNat < c.toNat by omega)]
    · by_cases hba : b.toNat < a.toNat
      · rw [if_neg hab, if_pos hba] at h1
        exact absurd h1 (by simp)
      · by_cases hbc : b.toNat < c.toNat
        · rw [if_pos (show a.toNat < c.toNat by omega)]
        · by_cases hcb : c.toNat < b.toNat
          · rw [if_neg hbc, if_pos hcb] at h2
            exact absurd h2 (by simp)
          · rw [if_neg hab, if_neg hba] at h1
            rw [if_neg hbc, if_neg hcb] at h2
            rw [if_neg (show ¬ a.toNat < c.toNat by omega),
              if_neg (show ¬ c.toNat < a.toNat by omega)]
            exact lexLt_trans as bs cs h1 h2

theorem lexLt_iff_lex : ∀ a b : List Char,
    lexLt a b = true ↔ List.Lex (fun x y : Char => x.toNat < y.toNat) a b
  | [], [] => by
    simp only [lexLt]
    constructor
    · intro h
      exact absurd h (by simp)
    · intro h
      cases h
  | [], b :: bs => by
    simp only [lexLt]
    exact ⟨fun _ => List.Lex.nil, fun _ => trivial⟩
  | a :: as, [] => by
    simp only [lexLt]
    constructor
    · intro h
      exact absurd h (by simp)
    · intro h
      cases h
  | a :: as, b :: bs => by
    unfold lexLt
    by_cases hab : a.toNat < b.toNat
    · rw [if_pos hab]
      exact ⟨fun _ => List.Lex.rel hab, fun _ => rfl⟩
    · by_cases hba : b.toNat < a.toNat
      · rw [if_neg hab, if_pos hba]
        constructor
        · intro h
          exact absurd h (by simp)
        · intro h
          cases h with
          | cons h' => omega
          | rel h' => omega
      · have hv : a = b := char_toNat_inj (by omega)
        subst hv
        rw [if_neg hab, if_neg hba]
        rw [lexLt_iff_lex as bs]
        constructor
        · exact fun h => List.Lex.cons h
        · intro h
          cases h with
          | cons h' => exact h'
          | rel h' => omega

theorem strLt_irrefl (s : String) : strLt s s = false := lexLt_irrefl s.data

theorem strLt_conn {s t : String} (h1 : strLt s t = false) (h2 : strLt t s = false) : s = t :=
  stringDataInj (lexLt_conn s.data t.data h1 h2)

theorem strLt_trans {s t u : String} (h1 : strLt s t = true) (h2 : strLt t u = true) :
    strLt s u = true := lexLt_trans s.data t.data u.data h1 h2

theorem strLt_iff (s t : String) : strLt s t = true ↔ StrLtP s t :=
  lexLt_iff_lex s.data t.data

theorem ordemSQL_iff (a b : Registro) : ordemSQL a b = true ↔
    (rank a.seq < rank b.seq ∨ (rank a.seq = rank b.seq ∧
      (strLt a.seq b.seq = true ∨ (a.seq = b.seq ∧
        (rank a.nib < rank b.nib ∨ (rank a.nib = rank b.nib ∧
          (strLt a.nib b.nib = true ∨ a.nib = b.nib))))))) := by
  unfold ordemSQL
  by_cases h1 : rank a.seq < rank b.seq
  · simp [h1]
  by_cases h2 : rank b.seq < rank a.seq
  · have he : ¬ rank a.seq = rank b.seq := by omega
    simp [h1, h2, he]
  have he : rank a.seq = rank b.seq := by omega
  by_cases h3 : strLt a.seq b.seq = true
  · simp [h1, h2, h3, he]
  by_cases h4 : strLt b.seq a.seq = true
  · have hne : ¬ a.seq = b.seq := by
      intro h
      rw [h] at h4
      rw [strLt_irrefl] at h4
      exact absurd h4 (by simp)
    simp [h1, h2, h3, h4, he, hne]
  have hs : a.seq = b.seq := strLt_conn (by simpa using h3) (by simpa using h4)
  by_cases h5 : rank a.nib < rank b.nib
  · simp [h1, h2, h3, h4, h5, he, hs]
  by_cases h6 : rank b.nib < rank a.nib
  · have hne : ¬ rank a.nib = rank b.nib := by omega
    simp [h1, h2, h3, h4, h5, h6, he, hs, hne]
  have hen : rank a.nib = rank b.nib := by omega
  by_cases h7 : strLt a.nib b.nib = true
  · simp [h1, h2, h3, h4, h5, h6, h7, he, hs, hen]
  by_cases h8 : strLt b.nib a.nib = true
  · have hne : ¬ a.nib = b.nib := by
      intro h
      rw [h] at h8
      rw [strLt_irrefl] at h8
      exact absurd h8 (by simp)
    simp [h1, h2, h3, h4, h5, h6, h7, h8, he, hs, hen, hne]
  have hn : a.nib = b.nib := strLt_conn (by simpa using h7) (by simpa using h8)
  simp [h1, h2, h3, h4, h5, h6, h7, h8, he, hs, hen, hn]

theorem ordemSQL_trans {a b c : Registro} (h1 : ordemSQL a b = true)
    (h2 : ordemSQL b c = true) : ordemSQL a c = true := by
  rw [ordemSQL_iff] at h1 h2 ⊢
  rcases h1 with h1 | ⟨e1, h1⟩
  · rcases h2 with h2 | ⟨e2, _⟩
    · exact Or.inl (by omega)
    · exact Or.inl (by omega)
  · rcases h2 with h2 | ⟨e2, h2⟩
    · exact Or.inl (by omega)
    · refine Or.inr ⟨by omega, ?_⟩
      rcases h1 with h1 | ⟨f1, h1⟩
      · rcases h2 with h2 | ⟨f2, _⟩
        · exact Or.inl (strLt_trans h1 h2)
        · exact Or.inl (f2 ▸ h1)
      · rcases h2 with h2 | ⟨f2, h2⟩
        · exact Or.inl (f1 ▸ h2)
        · refine Or.inr ⟨f1.trans f2, ?_⟩
          rcases h1 with h1 | ⟨g1, h1⟩
          · rcases h2 with h2 | ⟨g2, _⟩
            · exact Or.inl (by omega)
            · exact Or.inl (by omega)
          · rcases h2 with h2 | ⟨g2, h2⟩
            · exact Or.inl (by omega)
            · refine Or.inr ⟨by omega, ?_⟩
              rcases h1 with h1 | hn1
              · rcases h2 with h2 | hn2
                · exact Or.inl (strLt_trans h1 h2)
                · exact Or.inl (hn2 ▸ h1)
              · rcases h2 with h2 | hn2
                · exact Or.inl (hn1 ▸ h2)
                · exact Or.inr (hn1.trans hn2)

theorem ordemSQL_total (a b : Registro) : ordemSQL a b = true ∨ ordemSQL b a = true := by
  rw [ordemSQL_iff, ordemSQL_iff]
  by_cases h1 : rank a.seq < rank b.seq
  · exact Or.inl (Or.inl h1)
  by_cases h2 : rank b.seq < rank a.seq
  · exact Or.inr (Or.inl h2)
  by_cases h3 : strLt a.seq b.seq = true
  · exact Or.inl (Or.inr ⟨by omega, Or.inl h3⟩)
  by_cases h4 : strLt b.seq a.seq = true
  · exact Or.inr (Or.inr ⟨by omega, Or.inl h4⟩)
  have hs : a.seq = b.seq := strLt_conn (by simpa using h3) (by simpa using h4)
  by_cases h5 : rank a.nib < rank b.nib
  · exact Or.inl (Or.inr ⟨by omega, Or.inr ⟨hs, Or.inl h5⟩⟩)
  by_cases h6 : rank b.nib < rank a.nib
  · exact Or.inr (Or.inr ⟨by omega, Or.inr ⟨hs.symm, Or.inl h6⟩⟩)
  by_cases h7 : strLt a.nib b.nib = true
  · exact Or.inl (Or.inr ⟨by omega, Or.inr ⟨hs, Or.inr ⟨by omega, Or.inl h7⟩⟩⟩)
  by_cases h8 : strLt b.nib a.nib = true
  · exact Or.inr (Or.inr ⟨by omega, Or.inr ⟨hs.symm, Or.inr ⟨by omega, Or.inl h8⟩⟩⟩)
  have hn : a.nib = b.nib := strLt_conn (by simpa using h7) (by simpa using h8)
  exact Or.inl (Or.inr ⟨by omega, Or.inr ⟨hs, Or.inr ⟨by omega, Or.inr hn⟩⟩⟩)

theorem mem_insereOrdenado (r : Registro) : ∀ (l : List Registro) (x : Registro),
    x ∈ insereOrdenado r l ↔ x = r ∨ x ∈ l
  | [], x => by simp [insereOrdenado]
  | y :: ys, x => by
    unfold insereOrdenado
    by_cases h : ordemSQL r y = true
    · rw [if_pos h]
      simp only [List.mem_cons]
    · rw [if_neg h]
      simp only [List.mem_cons, mem_insereOrdenado r ys x]
      tauto

theorem perm_insereOrdenado (r : Registro) : ∀ l : List Registro,
    (insereOrdenado r l).Perm (r :: l)
  | [] => List.Perm.refl _
  | x :: xs => by
    unfold insereOrdenado
    by_cases h : ordemSQL r x = true
    · rw [if_pos h]
    · rw [if_neg h]
      exact ((perm_insereOrdenado r xs).cons x).trans (List.Perm.swap r x xs)

theorem perm_ordenarSQL : ∀ l : List Registro, (ordenarSQL l).Perm l
  | [] => List.Perm.refl _
  | x :: xs => (perm_insereOrdenado x (ordenarSQL xs)).trans ((perm_ordenarSQL xs).cons x)

theorem pairwise_insereOrdenado (r : Registro) : ∀ l : List Registro,
    l.Pairwise (fun a b => ordemSQL a b = true) →
    (insereOrdenado r l).Pairwise (fun a b => ordemSQL a b = true)
  | [], _ => by simp [insereOrdenado]
  | x :: xs, h => by
    unfold insereOrdenado
    rcases List.pairwise_cons.mp h with ⟨hx, hxs⟩
    by_cases hr : ordemSQL r x = true
    · rw [if_pos hr]
      refine List.pairwise_cons.mpr ⟨?_, h⟩
      intro b hb
      rcases List.mem_cons.mp hb with rfl | hb
      · exact hr
      · exact ordemSQL_trans hr (hx b hb)
    · rw [if_neg hr]
      refine List.pairwise_cons.mpr ⟨?_, pairwise_insereOrdenado r xs hxs⟩
      intro b hb
      rcases (mem_insereOrdenado r xs b).mp hb with rfl | hb
      · rcases ordemSQL_total x b with h' | h'
        · exact h'
        · exact absurd h' hr
      · exact hx b hb

theorem pairwise_ordenarSQL : ∀ l : List Registro,
    (ordenarSQL l).Pairwise (fun a b => ordemSQL a b = true)
  | [] => List.Pairwise.nil
  | x :: xs => pairwise_insereOrdenado x (ordenarSQL xs) (pairwise_ordenarSQL xs)

theorem vazia_iff (s : String) : vazia s = true ↔ Vazia s := by
  unfold vazia Vazia
  exact beq_iff_eq

theorem rank_lt_iff (s t : String) : rank s < rank t ↔ (¬ Vazia s ∧ Vazia t) := by
  rw [← vazia_iff, ← vazia_iff]
  unfold rank
  by_cases hs : vazia s = true
  · rw [if_pos hs]
    by_cases ht : vazia t = true
    · rw [if_pos ht]; simp [hs, ht]
    · rw [if_neg ht]; simp [hs, ht]
  · rw [if_neg hs]
    by_cases ht : vazia t = true
    · rw [if_pos ht]; simp [hs, ht]
    · rw [if_neg ht]; simp [hs, ht]

theorem rank_eq_iff (s t : String) : rank s = rank t ↔ (Vazia s ↔ Vazia t) := by
  rw [← vazia_iff, ← vazia_iff]
  unfold rank
  by_cases hs : vazia s = true
  · rw [if_pos hs]
    by_cases ht : vazia t = true
    · rw [if_pos ht]; simp [hs, ht]
    · rw [if_neg ht]; simp [hs, ht]
  · rw [if_neg hs]
    by_cases ht : vazia t = true
    · rw [if_pos ht]; simp [hs, ht]
    · rw [if_neg ht]; simp [hs, ht]

theorem ordemSQL_iff_ordemFolha (a b : Registro) :
    ordemSQL a b = true ↔ OrdemFolha a b := by
  rw [ordemSQL_iff]
  unfold OrdemFolha
  rw [rank_lt_iff, rank_eq_iff, rank_lt_iff, rank_eq_iff, strLt_iff, strLt_iff]

theorem mem_dedupAcum : ∀ (l vistos : List String) (x : String),
    x ∈ dedupAcum vistos l ↔ x ∈ l ∧ x ∉ vistos
  | [], vistos, x => by simp [dedupAcum]
  | y :: ys, vistos, x => by
    unfold dedupAcum
    by_cases h : vistos.contains y = true
    · rw [if_pos h]
      rw [mem_dedupAcum ys vistos x]
      simp only [List.mem_cons]
      constructor
      · rintro ⟨hx, hv⟩
        exact ⟨Or.inr hx, hv⟩
      · rintro ⟨hx | hx, hv⟩
        · subst hx
          exact absurd (by simpa using h) hv
        · exact ⟨hx, hv⟩
    · rw [if_neg h]
      simp only [List.mem_cons]
      rw [mem_dedupAcum ys (y :: vistos) x]
      by_cases hxy : x = y
      · subst hxy
        have hnv : x ∉ vistos := by simpa using h
        simp [hnv]
      · simp only [List.mem_cons]
        constructor
        · rintro (h' | ⟨hx, hv⟩)
          · exact absurd h' hxy
          · exact ⟨Or.inr hx, fun hm => hv (Or.inr hm)⟩
        · rintro ⟨hx | hx, hv⟩
          · exact absurd hx hxy
          · exact Or.inr ⟨hx, fun hm => by
              rcases hm with hm | hm
              · exact hxy hm
              · exact hv hm⟩

theorem nodup_dedupAcum : ∀ (l vistos : List String), (dedupAcum vistos l).Nodup
  | [], _ => List.nodup_nil
  | y :: ys, vistos => by
    unfold dedupAcum
    by_cases h : vistos.contains y = true
    · rw [if_pos h]
      exact nodup_dedupAcum ys vistos
    · rw [if_neg h]
      refine List.nodup_cons.mpr ⟨?_, nodup_dedupAcum ys (y :: vistos)⟩
      intro hy
      exact ((mem_dedupAcum ys (y :: vistos) y).mp hy).2 (List.mem_cons_self y vistos)

theorem dedupAcum_eq_nil : ∀ (l vistos : List String),
    dedupAcum vistos l = [] ↔ ∀ x ∈ l, x ∈ vistos
  | [], vistos => by simp [dedupAcum]
  | y :: ys, vistos => by
    unfold dedupAcum
    by_cases h : vistos.contains y = true
    · rw [if_pos h]
      rw [dedupAcum_eq_nil ys vistos]
      constructor
      · intro hall x hx
        rcases List.mem_cons.mp hx with rfl | hx
        · simpa using h
        · exact hall x hx
      · intro hall x hx
        exact hall x (List.mem_cons_of_mem _ hx)
    · rw [if_neg h]
      constructor
      · intro hh
        exact absurd hh (by simp)
      · intro hall
        exact absurd (hall y (List.mem_cons_self y ys)) (by simpa using h)

theorem estadoNaoProg_iff (r : Registro) : estadoNaoProg r = true ↔ ¬ Reclamado r := by
  unfold estadoNaoProg Reclamado
  simp [bne_iff_ne]

theorem estadoNaoProg_prog (r : Registro) :
    estadoNaoProg { r with estado := "prog" } = false := rfl

theorem criterioCond_iff (ct cv : String) (r : Registro) :
    criterioCond ct cv r = true ↔ CriterioP ct cv r := by
  unfold criterioCond CriterioP
  by_cases h1 : ct = ""
  · simp [h1]
  by_cases h2 : cv = ""
  · simp [h1, h2]
  have hb : (ct == "" || cv == "") = false := by
    simp [h1, h2]
  rw [hb]
  simp only [Bool.false_eq_true, if_false]
  cases hm : MAPEAMENTO_CRITERIOS ct with
  | none => simp [hm, h1, h2]
  | some c =>
    simp only [hm, beq_iff_eq]
    constructor
    · intro he c' _ _ hc'
      rw [Option.some.injEq] at hc'
      rw [← hc']
      exact he
    · intro hp
      exact hp c h1 h2 rfl

theorem grupoCondSelecao_iff (tipo valor : String) (cils : List String) (r : Registro) :
    grupoCondSelecao tipo valor cils r = true ↔ GrupoSelecaoP tipo valor cils r := by
  unfold grupoCondSelecao GrupoSelecaoP
  by_cases h1 : tipo = "AVULSO" ∧ cils ≠ []
  · have hb : (tipo == "AVULSO" && !cils.isEmpty) = true := by
      rcases h1 with ⟨ha, hc⟩
      simp [ha, hc]
    rw [hb, if_pos h1]
    simp
  · have hb : (tipo == "AVULSO" && !cils.isEmpty) = false := by
      rcases not_and_or.mp h1 with ha | hc
      · simp [ha]
      · have : cils = [] := not_not.mp hc
        simp [this]
    rw [hb, if_neg h1]
    simp only [Bool.false_eq_true, if_false]
    by_cases h2 : valor = ""
    · simp [h2]
    · rw [if_pos (show valor ≠ "" from h2)]
      have hv : (valor != "") = true := by simp [h2]
      rw [hv]
      simp only [if_pos rfl]
      by_cases h3 : tipo = "PT"
      · simp [h3]
      · have hb3 : (tipo == "PT") = false := by simp [h3]
        simp [h3, hb3]

theorem forall₂_map_self {α β : Type} (f : α → β) (R : α → β → Prop)
    (h : ∀ a, R a (f a)) : ∀ l : List α, List.Forall₂ R l (l.map f)
  | [] => List.Forall₂.nil
  | x :: xs => List.Forall₂.cons (h x) (forall₂_map_self f R h xs)

theorem forall₂_self {α : Type} (R : α → α → Prop) (h : ∀ a, R a a) :
    ∀ l : List α, List.Forall₂ R l l
  | [] => List.Forall₂.nil
  | x :: xs => List.Forall₂.cons (h x) (forall₂_self R h xs)

theorem forall₂_comp {α : Type} {S R T : α → α → Prop}
    (h : ∀ a b c, S a b → R b c → T a c) :
    ∀ {l1 l2 l3 : List α}, List.Forall₂ S l1 l2 → List.Forall₂ R l2 l3 →
      List.Forall₂ T l1 l3
  | _, _, _, List.Forall₂.nil, List.Forall₂.nil => List.Forall₂.nil
  | _, _, _, List.Forall₂.cons hs hls, List.Forall₂.cons hr hlr =>
    List.Forall₂.cons (h _ _ _ hs hr) (forall₂_comp h hls hlr)

theorem forall₂_imp_right {α : Type} {R T : α → α → Prop}
    (h : ∀ a b, R a b → T a b) :
    ∀ {l1 l2 : List α}, List.Forall₂ R l1 l2 → List.Forall₂ T l1 l2
  | _, _, List.Forall₂.nil => List.Forall₂.nil
  | _, _, List.Forall₂.cons hr hl => List.Forall₂.cons (h _ _ hr) (forall₂_imp_right h hl)

theorem predUpdate_estado {tipo valor ct cv : String} {nibs : List String} {r : Registro}
    (h : predUpdate tipo valor ct cv nibs r = true) : estadoNaoProg r = true := by
  unfold predUpdate at h
  simp only [Bool.and_eq_true] at h
  exact h.1.1.2

theorem predUpdate_prog_false (tipo valor ct cv : String) (nibs : List String)
    (r : Registro) : predUpdate tipo valor ct cv nibs { r with estado := "prog" } = false := by
  by_cases h : predUpdate tipo valor ct cv nibs { r with estado := "prog" } = true
  · have := predUpdate_estado h
    rw [estadoNaoProg_prog] at this
    exact absurd this (by simp)
  · simpa using h

theorem aplicarUpdateProg_forall (bd : List Registro) (p : Registro → Bool) :
    List.Forall₂ (fun a b => b = if p a then { a with estado := "prog" } else a)
      bd (aplicarUpdateProg bd p).1 := by
  unfold aplicarUpdateProg
  induction bd with
  | nil => exact List.Forall₂.nil
  | cons x xs ih => exact List.Forall₂.cons rfl ih

theorem countP_update {p : Registro → Bool}
    (hp : ∀ r, p r = true → estadoNaoProg r = true) :
    ∀ bd : List Registro,
      List.countP estadoNaoProg
          (bd.map fun r => if p r then { r with estado := "prog" } else r)
        + List.countP p bd
      = List.countP estadoNaoProg bd
  | [] => rfl
  | x :: xs => by
    have ih := countP_update hp xs
    simp only [List.map_cons, List.countP_cons]
    by_cases hx : p x = true
    · have h1 : estadoNaoProg x = true := hp x hx
      rw [if_pos hx, if_pos hx, estadoNaoProg_prog, if_neg Bool.false_ne_true, if_pos h1]
      omega
    · rw [if_neg hx, if_neg hx]
      omega

theorem aplicarUpdateProg_count (bd : List Registro) (p : Registro → Bool)
    (hp : ∀ r, p r = true → estadoNaoProg r = true) :
    List.countP estadoNaoProg (aplicarUpdateProg bd p).1 + (aplicarUpdateProg bd p).2
      = List.countP estadoNaoProg bd :=
  countP_update hp bd

theorem cicloFolhas_succ (df : List Registro) (nibsU : List String)
    (tipo valor ct cv : String) (q n i : Nat) (bd : List Registro) :
    cicloFolhas df nibsU tipo valor ct cv q (n + 1) i bd =
      ((df.filter fun r => (nibsDaFolha nibsU q i).contains r.nib) ::
          (cicloFolhas df nibsU tipo valor ct cv q n (i + 1)
            (aplicarUpdateProg bd (predUpdate tipo valor ct cv (nibsDaFolha nibsU q i))).1).1,
        (aplicarUpdateProg bd (predUpdate tipo valor ct cv (nibsDaFolha nibsU q i))).2 +
          (cicloFolhas df nibsU tipo valor ct cv q n (i + 1)
            (aplicarUpdateProg bd (predUpdate tipo valor ct cv (nibsDaFolha nibsU q i))).1).2.1,
        (cicloFolhas df nibsU tipo valor ct cv q n (i + 1)
          (aplicarUpdateProg bd (predUpdate tipo valor ct cv (nibsDaFolha nibsU q i))).1).2.2) :=
  rfl

theorem cicloFolhas_length (df : List Registro) (nibsU : List String)
    (tipo valor ct cv : String) (q : Nat) :
    ∀ (n i : Nat) (bd : List Registro),
      (cicloFolhas df nibsU tipo valor ct cv q n i bd).1.length = n
  | 0, _, _ => rfl
  | Nat.succ n, i, bd => by
    rw [cicloFolhas_succ, List.length_cons,
      cicloFolhas_length df nibsU tipo valor ct cv q n (i + 1) _]

theorem cicloFolhas_count (df : List Registro) (nibsU : List String)
    (tipo valor ct cv : String) (q : Nat) :
    ∀ (n i : Nat) (bd : List Registro),
      List.countP estadoNaoProg (cicloFolhas df nibsU tipo valor ct cv q n i bd).2.2
          + (cicloFolhas df nibsU tipo valor ct cv q n i bd).2.1
        = List.countP estadoNaoProg bd
  | 0, _, bd => rfl
  | Nat.succ n, i, bd => by
    rw [cicloFolhas_succ]
    dsimp only
    have h1 := aplicarUpdateProg_count bd
      (predUpdate tipo valor ct cv (nibsDaFolha nibsU q i))
      (fun r h => predUpdate_estado h)
    have h2 := cicloFolhas_count df nibsU tipo valor ct cv q n (i + 1)
      (aplicarUpdateProg bd (predUpdate tipo valor ct cv (nibsDaFolha nibsU q i))).1
    omega

theorem cicloFolhas_get? (df : List Registro) (nibsU : List String)
    (tipo valor ct cv : String) (q : Nat) :
    ∀ (n i k : Nat) (bd : List Registro), k < n →
      (cicloFolhas df nibsU tipo valor ct cv q n i bd).1.get? k =
        some (df.filter fun r => (nibsDaFolha nibsU q (i + k)).contains r.nib)
  | 0, _, k, _, hk => absurd hk (Nat.not_lt_zero k)
  | Nat.succ n, i, 0, bd, _ => by
    rw [cicloFolhas_succ]
    simp only [List.get?_cons_zero, Nat.add_zero]
  | Nat.succ n, i, Nat.succ k, bd, hk => by
    have he : i + (k + 1) = (i + 1) + k := by omega
    rw [he, cicloFolhas_succ, List.get?_cons_succ]
    exact cicloFolhas_get? df nibsU tipo valor ct cv q n (i + 1) k _ (by omega)

theorem cicloFolhas_mudanca (df : List Registro) (nibsU : List String)
    (tipo valor ct cv : String) (q : Nat) :
    ∀ (n i : Nat) (bd : List Registro),
      List.Forall₂ (fun a b => b = a ∨
          (b = { a with estado := "prog" } ∧ ∃ k, k < n ∧
            predUpdate tipo valor ct cv (nibsDaFolha nibsU q (i + k)) a = true))
        bd (cicloFolhas df nibsU tipo valor ct cv q n i bd).2.2
  | 0, i, bd => by
    exact forall₂_self
      (fun a b => b = a ∨ (b = { a with estado := "prog" } ∧ ∃ k, k < 0 ∧
        predUpdate tipo valor ct cv (nibsDaFolha nibsU q (i + k)) a = true))
      (fun _ => Or.inl rfl) bd
  | Nat.succ n, i, bd => by
    rw [cicloFolhas_succ]
    refine forall₂_comp ?_
      (aplicarUpdateProg_forall bd (predUpdate tipo valor ct cv (nibsDaFolha nibsU q i)))
      (cicloFolhas_mudanca df nibsU tipo valor ct cv q n (i + 1)
        (aplicarUpdateProg bd (predUpdate tipo valor ct cv (nibsDaFolha nibsU q i))).1)
    intro a b c hS hR
    by_cases hp : predUpdate tipo valor ct cv (nibsDaFolha nibsU q i) a = true
    · rw [if_pos hp] at hS
      subst hS
      rcases hR with rfl | ⟨_, k, _, hpred⟩
      · refine Or.inr ⟨rfl, 0, by omega, ?_⟩
        simpa using hp
      · rw [predUpdate_prog_false] at hpred
        exact absurd hpred Bool.false_ne_true
    · rw [if_neg hp] at hS
      subst hS
      rcases hR with rfl | ⟨hc, k, hk, hpred⟩
      · exact Or.inl rfl
      · refine Or.inr ⟨hc, k + 1, by omega, ?_⟩
        have he : i + (k + 1) = (i + 1) + k := by omega
        rw [he]
        exact hpred

theorem cicloFolhas_frame (df : List Registro) (nibsU : List String)
    (tipo valor ct cv : String) (q : Nat) (n i : Nat) (bd : List Registro) :
    List.Forall₂ MesmoExcetoEstado bd
      (cicloFolhas df nibsU tipo valor ct cv q n i bd).2.2 := by
  refine forall₂_imp_right ?_ (cicloFolhas_mudanca df nibsU tipo valor ct cv q n i bd)
  intro a b hab
  rcases hab with rfl | ⟨rfl, _⟩
  · unfold MesmoExcetoEstado
    refine ⟨rfl, rfl, rfl, rfl, rfl, rfl, rfl, rfl, rfl, rfl, rfl, rfl, rfl, rfl, rfl, rfl, rfl⟩
  · unfold MesmoExcetoEstado
    refine ⟨rfl, rfl, rfl, rfl, rfl, rfl, rfl, rfl, rfl, rfl, rfl, rfl, rfl, rfl, rfl, rfl, rfl⟩

theorem dedupAcum_ne_nil {l : List String} (h : l ≠ []) : dedupAcum [] l ≠ [] := by
  intro hnil
  rw [dedupAcum_eq_nil] at hnil
  cases l with
  | nil => exact h rfl
  | cons x xs => exact absurd (hnil x (List.mem_cons_self x xs)) (by simp)

theorem mem_nibsDaFolha {nibsU : List String} {q k : Nat} {x : String} :
    x ∈ nibsDaFolha nibsU q k ↔
      ∃ j, k * q ≤ j ∧ j < k * q + q ∧ ∃ hj : j < nibsU.length, nibsU[j] = x := by
  unfold nibsDaFolha
  rw [List.mem_iff_getElem]
  constructor
  · rintro ⟨m, hm, hget⟩
    have hq : m < q ∧ k * q + m < nibsU.length := by
      have h1 := hm
      rw [List.length_take, List.length_drop] at h1
      omega
    refine ⟨k * q + m, by omega, by omega, hq.2, ?_⟩
    rw [← hget, List.getElem_take, List.getElem_drop]
  · rintro ⟨j, hj1, hj2, hj3, hget⟩
    obtain ⟨m, rfl⟩ : ∃ m, j = k * q + m := ⟨j - k * q, by omega⟩
    have hlen : m < (List.take q (List.drop (k * q) nibsU)).length := by
      rw [List.length_take, List.length_drop]
      omega
    refine ⟨m, hlen, ?_⟩
    rw [List.getElem_take, List.getElem_drop]
    exact hget

theorem nibsDaFolha_disjunta {nibsU : List String} (hnd : nibsU.Nodup) {q k1 k2 : Nat}
    (hne : k1 ≠ k2) {x : String} (h1 : x ∈ nibsDaFolha nibsU q k1)
    (h2 : x ∈ nibsDaFolha nibsU q k2) : False := by
  rcases mem_nibsDaFolha.mp h1 with ⟨j1, ha1, hb1, hc1, hget1⟩
  rcases mem_nibsDaFolha.mp h2 with ⟨j2, ha2, hb2, hc2, hget2⟩
  have hgg : nibsU[j1] = nibsU[j2] := by rw [hget1, hget2]
  have hj : j1 = j2 := (hnd.getElem_inj_iff).mp hgg
  rcases Nat.lt_or_ge k1 k2 with hlt | hge
  · have hmul : (k1 + 1) * q ≤ k2 * q := Nat.mul_le_mul_right q (by omega)
    rw [Nat.succ_mul] at hmul
    omega
  · have hlt2 : k2 < k1 := by omega
    have hmul : (k2 + 1) * q ≤ k1 * q := Nat.mul_le_mul_right q (by omega)
    rw [Nat.succ_mul] at hmul
    omega

theorem nibsDaFolha_cobre {nibsU : List String} {q : Nat} (hq : 1 ≤ q) {j : Nat}
    (hj : j < nibsU.length) : nibsU[j] ∈ nibsDaFolha nibsU q (j / q) := by
  apply mem_nibsDaFolha.mpr
  refine ⟨j, Nat.div_mul_le_self j q, ?_, hj, rfl⟩
  have h1 := Nat.div_add_mod j q
  have h2 := Nat.mod_lt j (show 0 < q by omega)
  rw [Nat.mul_comm] at h1
  omega

theorem ceil_mul_ge (len q : Nat) (hq : 1 ≤ q) : len ≤ ((len + q - 1) / q) * q := by
  have h1 := Nat.div_add_mod (len + q - 1) q
  have h2 := Nat.mod_lt (len + q - 1) (show 0 < q by omega)
  rw [Nat.mul_comm] at h1
  omega

theorem folhasPossiveis_pos {len q : Nat} (hq : 1 ≤ q) (hlen : 1 ≤ len) :
    1 ≤ (len + q - 1) / q := by
  have h1 := Nat.div_add_mod (len + q - 1) q
  have h2 := Nat.mod_lt (len + q - 1) (show 0 < q by omega)
  rcases Nat.eq_zero_or_pos ((len + q - 1) / q) with hz | hp
  · rw [hz] at h1
    omega
  · exact hp

theorem div_lt_folhasPossiveis {len q j : Nat} (hq : 1 ≤ q) (hj : j < len) :
    j / q < (len + q - 1) / q := by
  have hle : len ≤ ((len + q - 1) / q) * q := ceil_mul_ge len q hq
  have := (Nat.div_lt_iff_lt_mul (show 0 < q by omega)).mpr
    (show j < ((len + q - 1) / q) * q by omega)
  exact this

theorem mem_consultaElegiveis {bd : List Registro} {tipo valor : String}
    {cils : List String} {ct cv : String} {r : Registro} :
    r ∈ consultaElegiveis bd tipo valor cils ct cv ↔
      r ∈ bd ∧ condicaoSelecao tipo valor cils ct cv r = true := by
  unfold consultaElegiveis
  rw [(perm_ordenarSQL _).mem_iff, List.mem_filter]

theorem consultaElegiveis_perm (bd : List Registro) (tipo valor : String)
    (cils : List String) (ct cv : String) :
    (consultaElegiveis bd tipo valor cils ct cv).Perm
      (bd.filter (condicaoSelecao tipo valor cils ct cv)) :=
  perm_ordenarSQL _

theorem consultaElegiveis_ordenada (bd : List Registro) (tipo valor : String)
    (cils : List String) (ct cv : String) :
    (consultaElegiveis bd tipo valor cils ct cv).Pairwise OrdemFolha := by
  refine (pairwise_ordenarSQL _).imp ?_
  intro a b h
  exact (ordemSQL_iff_ordemFolha a b).mp h

theorem condicaoSelecao_iff (tipo valor : String) (cils : List String) (ct cv : String)
    (r : Registro) :
    condicaoSelecao tipo valor cils ct cv r = true ↔
      ¬ Reclamado r ∧ CriterioP ct cv r ∧ GrupoSelecaoP tipo valor cils r := by
  unfold condicaoSelecao
  simp only [Bool.and_eq_true]
  rw [estadoNaoProg_iff, criterioCond_iff, grupoCondSelecao_iff]
  tauto

theorem predUpdate_iff (tipo valor ct cv : String) (nibs : List String) (r : Registro) :
    predUpdate tipo valor ct cv nibs r = true ↔
      r.nib ∈ nibs ∧ ¬ Reclamado r ∧ CriterioP ct cv r ∧
        (tipo = "PT" → normUpper r.pt = normUpper valor) ∧
        (tipo = "LOCALIDADE" → normUpper r.localidade = normUpper valor) := by
  unfold predUpdate
  simp only [Bool.and_eq_true]
  rw [estadoNaoProg_iff, criterioCond_iff]
  by_cases h1 : tipo = "PT"
  · subst h1
    constructor
    · rintro ⟨⟨⟨hnib, hest⟩, hcrit⟩, hgrp⟩
      refine ⟨by simpa using hnib, hest, hcrit, ?_, ?_⟩
      · intro _
        have : (if ("PT" == "PT") = true then normUpper r.pt else normUpper r.localidade)
            = normUpper r.pt := by simp
        rw [if_pos (by simp : (("PT" == "PT") || ("PT" == "LOCALIDADE")) = true)] at hgrp
        rw [this] at hgrp
        exact beq_iff_eq.mp hgrp
      · intro hx
        exact absurd hx (by decide)
    · rintro ⟨hnib, hest, hcrit, hpt, _⟩
      refine ⟨⟨⟨by simpa using hnib, hest⟩, hcrit⟩, ?_⟩
      rw [if_pos (by simp : (("PT" == "PT") || ("PT" == "LOCALIDADE")) = true)]
      simp only [if_pos (by simp : ("PT" == "PT") = true)]
      exact beq_iff_eq.mpr (hpt (by trivial))
  · by_cases h2 : tipo = "LOCALIDADE"
    · subst h2
      constructor
      · rintro ⟨⟨⟨hnib, hest⟩, hcrit⟩, hgrp⟩
        refine ⟨by simpa using hnib, hest, hcrit, ?_, ?_⟩
        · intro hx
          exact absurd hx (by decide)
        · intro _
          rw [if_pos (by simp : (("LOCALIDADE" == "PT") || ("LOCALIDADE" == "LOCALIDADE"))
            = true)] at hgrp
          rw [if_neg (by simp : ¬ (("LOCALIDADE" == "PT") = true))] at hgrp
          exact beq_iff_eq.mp hgrp
      · rintro ⟨hnib, hest, hcrit, _, hloc⟩
        refine ⟨⟨⟨by simpa using hnib, hest⟩, hcrit⟩, ?_⟩
        rw [if_pos (by simp : (("LOCALIDADE" == "PT") || ("LOCALIDADE" == "LOCALIDADE"))
          = true)]
        rw [if_neg (by simp : ¬ (("LOCALIDADE" == "PT") = true))]
        exact beq_iff_eq.mpr (hloc (by trivial))
    · have hb : ((tipo == "PT") || (tipo == "LOCALIDADE")) = false := by
        simp [h1, h2]
      rw [hb]
      simp only [Bool.false_eq_true, if_false]
      constructor
      · rintro ⟨⟨⟨hnib, hest⟩, hcrit⟩, _⟩
        exact ⟨by simpa using hnib, hest, hcrit, fun hx => absurd hx h1,
          fun hx => absurd hx h2⟩
      · rintro ⟨hnib, hest, hcrit, _, _⟩
        exact ⟨⟨⟨by simpa using hnib, hest⟩, hcrit⟩, by trivial⟩

theorem gerar_eq (bd : List Registro) (tipo valor : String) (m q : Nat)
    (cils : List String) (ct cv : String) :
    gerar_folhas_trabalho bd tipo valor m q cils ct cv =
      (if consultaElegiveis bd tipo valor cils ct cv = [] then
        ⟨none, cilsNaoEncontradosCalc tipo cils (consultaElegiveis bd tipo valor cils ct cv),
          0, bd⟩
      else
        (if (cicloFolhas (dfLimpo bd tipo valor cils ct cv)
              (nibsUnicosDe bd tipo valor cils ct cv) tipo valor ct cv q
              (numFolhas bd tipo valor cils ct cv m q) 0 bd).1 = [] then
          ⟨none, cilsNaoEncontradosCalc tipo cils (consultaElegiveis bd tipo valor cils ct cv),
            (cicloFolhas (dfLimpo bd tipo valor cils ct cv)
              (nibsUnicosDe bd tipo valor cils ct cv) tipo valor ct cv q
              (numFolhas bd tipo valor cils ct cv m q) 0 bd).2.1,
            (cicloFolhas (dfLimpo bd tipo valor cils ct cv)
              (nibsUnicosDe bd tipo valor cils ct cv) tipo valor ct cv q
              (numFolhas bd tipo valor cils ct cv m q) 0 bd).2.2⟩
        else
          ⟨some (cicloFolhas (dfLimpo bd tipo valor cils ct cv)
              (nibsUnicosDe bd tipo valor cils ct cv) tipo valor ct cv q
              (numFolhas bd tipo valor cils ct cv m q) 0 bd).1,
            cilsNaoEncontradosCalc tipo cils (consultaElegiveis bd tipo valor cils ct cv),
            (cicloFolhas (dfLimpo bd tipo valor cils ct cv)
              (nibsUnicosDe bd tipo valor cils ct cv) tipo valor ct cv q
              (numFolhas bd tipo valor cils ct cv m q) 0 bd).2.1,
            (cicloFolhas (dfLimpo bd tipo valor cils ct cv)
              (nibsUnicosDe bd tipo valor cils ct cv) tipo valor ct cv q
              (numFolhas bd tipo valor cils ct cv m q) 0 bd).2.2⟩)) := by
  simp only [gerar_folhas_trabalho, numFolhas, nibsUnicosDe, dfLimpo]
  by_cases h1 : consultaElegiveis bd tipo valor cils ct cv = []
  · simp [h1]
  · have hmap : ((consultaElegiveis bd tipo valor cils ct cv).map limparNib).map (·.nib)
        ≠ [] := by
      simp [h1]
    have hnibs := dedupAcum_ne_nil hmap
    have hlen : (dedupAcum []
        (((consultaElegiveis bd tipo valor cils ct cv).map limparNib).map (·.nib))).length
        ≠ 0 := by
      simpa [List.length_eq_zero] using hnibs
    rw [if_neg (show ¬ ((consultaElegiveis bd tipo valor cils ct cv).isEmpty = true) by
      simpa [List.isEmpty_iff] using h1)]
    rw [if_neg (show ¬ (((dedupAcum [] (((consultaElegiveis bd tipo valor cils ct
      cv).map limparNib).map (·.nib))).length == 0) = true) by simpa using hlen)]
    rw [if_neg h1]
    simp only [List.isEmpty_iff]

theorem mesmoExcetoEstado_self (a : Registro) : MesmoExcetoEstado a a :=
  ⟨rfl, rfl, rfl, rfl, rfl, rfl, rfl, rfl, rfl, rfl, rfl, rfl, rfl, rfl, rfl, rfl, rfl⟩

theorem mesmoExcetoEstado_estado (a : Registro) (s : String) :
    MesmoExcetoEstado a { a with estado := s } :=
  ⟨rfl, rfl, rfl, rfl, rfl, rfl, rfl, rfl, rfl, rfl, rfl, rfl, rfl, rfl, rfl, rfl, rfl⟩

theorem gerar_count (bd : List Registro) (tipo valor : String) (m q : Nat)
    (cils : List String) (ct cv : String) :
    (gerar_folhas_trabalho bd tipo valor m q cils ct cv).totalAtualizados
        + List.countP estadoNaoProg (gerar_folhas_trabalho bd tipo valor m q cils ct cv).bd
      = List.countP estadoNaoProg bd := by
  rw [gerar_eq]
  by_cases h1 : consultaElegiveis bd tipo valor cils ct cv = []
  · rw [if_pos h1]
    simp
  · rw [if_neg h1]
    have hc := cicloFolhas_count (dfLimpo bd tipo valor cils ct cv)
      (nibsUnicosDe bd tipo valor cils ct cv) tipo valor ct cv q
      (numFolhas bd tipo valor cils ct cv m q) 0 bd
    by_cases h2 : (cicloFolhas (dfLimpo bd tipo valor cils ct cv)
        (nibsUnicosDe bd tipo valor cils ct cv) tipo valor ct cv q
        (numFolhas bd tipo valor cils ct cv m q) 0 bd).1 = []
    · rw [if_pos h2]
      dsimp only
      omega
    · rw [if_neg h2]
      dsimp only
      omega

theorem gerar_mudanca (bd : List Registro) (tipo valor : String) (m q : Nat)
    (cils : List String) (ct cv : String) :
    List.Forall₂ (fun a b => b = a ∨ (b = { a with estado := "prog" } ∧
        ∃ k, k < numFolhas bd tipo valor cils ct cv m q ∧
          predUpdate tipo valor ct cv
            (nibsDaFolha (nibsUnicosDe bd tipo valor cils ct cv) q k) a = true))
      bd (gerar_folhas_trabalho bd tipo valor m q cils ct cv).bd := by
  rw [gerar_eq]
  by_cases h1 : consultaElegiveis bd tipo valor cils ct cv = []
  · rw [if_pos h1]
    exact forall₂_self
      (fun a b => b = a ∨ (b = { a with estado := "prog" } ∧
        ∃ k, k < numFolhas bd tipo valor cils ct cv m q ∧
          predUpdate tipo valor ct cv
            (nibsDaFolha (nibsUnicosDe bd tipo valor cils ct cv) q k) a = true))
      (fun _ => Or.inl rfl) bd
  · rw [if_neg h1]
    have hm := cicloFolhas_mudanca (dfLimpo bd tipo valor cils ct cv)
      (nibsUnicosDe bd tipo valor cils ct cv) tipo valor ct cv q
      (numFolhas bd tipo valor cils ct cv m q) 0 bd
    by_cases h2 : (cicloFolhas (dfLimpo bd tipo valor cils ct cv)
        (nibsUnicosDe bd tipo valor cils ct cv) tipo valor ct cv q
        (numFolhas bd tipo valor cils ct cv m q) 0 bd).1 = []
    · rw [if_pos h2]
      refine forall₂_imp_right ?_ hm
      intro a b hab
      simpa using hab
    · rw [if_neg h2]
      refine forall₂_imp_right ?_ hm
      intro a b hab
      simpa using hab

theorem gerar_frame (bd : List Registro) (tipo valor : String) (m q : Nat)
    (cils : List String) (ct cv : String) :
    List.Forall₂ MesmoExcetoEstado bd
      (gerar_folhas_trabalho bd tipo valor m q cils ct cv).bd := by
  refine forall₂_imp_right ?_ (gerar_mudanca bd tipo valor m q cils ct cv)
  intro a b hab
  rcases hab with rfl | ⟨rfl, _⟩
  · exact mesmoExcetoEstado_self _
  · exact mesmoExcetoEstado_estado _ "prog"

theorem executarChamadas_count : ∀ (calls : List ChamadaGeracao) (bd : List Registro),
    (executarChamadas bd calls).1
        + List.countP estadoNaoProg (executarChamadas bd calls).2
      = List.countP estadoNaoProg bd
  | [], bd => by simp [executarChamadas]
  | c :: cs, bd => by
    have h1 := gerar_count bd c.tipo c.valor c.quantidade_folhas c.quantidade_nibs c.cils
      c.criterio_tipo c.criterio_valor
    have h2 := executarChamadas_count cs (gerar_folhas_trabalho bd c.tipo c.valor
      c.quantidade_folhas c.quantidade_nibs c.cils c.criterio_tipo c.criterio_valor).bd
    simp only [executarChamadas]
    omega

theorem gerar_folhas_df_vazio {bd : List Registro} {tipo valor : String} {m q : Nat}
    {cils : List String} {ct cv : String}
    (h : consultaElegiveis bd tipo valor cils ct cv = []) :
    gerar_folhas_trabalho bd tipo valor m q cils ct cv =
      ⟨none, cilsNaoEncontradosCalc tipo cils (consultaElegiveis bd tipo valor cils ct cv),
        0, bd⟩ := by
  rw [gerar_eq, if_pos h]

theorem gerar_folhas_zero {bd : List Registro} {tipo valor : String} {m q : Nat}
    {cils : List String} {ct cv : String}
    (h1 : consultaElegiveis bd tipo valor cils ct cv ≠ [])
    (h2 : numFolhas bd tipo valor cils ct cv m q = 0) :
    gerar_folhas_trabalho bd tipo valor m q cils ct cv =
      ⟨none, cilsNaoEncontradosCalc tipo cils (consultaElegiveis bd tipo valor cils ct cv),
        0, bd⟩ := by
  rw [gerar_eq, if_neg h1, h2]
  rfl

theorem gerar_folhas_pos {bd : List Registro} {tipo valor : String} {m q : Nat}
    {cils : List String} {ct cv : String}
    (h1 : consultaElegiveis bd tipo valor cils ct cv ≠ [])
    (h2 : 0 < numFolhas bd tipo valor cils ct cv m q) :
    gerar_folhas_trabalho bd tipo valor m q cils ct cv =
      ⟨some (cicloFolhas (dfLimpo bd tipo valor cils ct cv)
          (nibsUnicosDe bd tipo valor cils ct cv) tipo valor ct cv q
          (numFolhas bd tipo valor cils ct cv m q) 0 bd).1,
        cilsNaoEncontradosCalc tipo cils (consultaElegiveis bd tipo valor cils ct cv),
        (cicloFolhas (dfLimpo bd tipo valor cils ct cv)
          (nibsUnicosDe bd tipo valor cils ct cv) tipo valor ct cv q
          (numFolhas bd tipo valor cils ct cv m q) 0 bd).2.1,
        (cicloFolhas (dfLimpo bd tipo valor cils ct cv)
          (nibsUnicosDe bd tipo valor cils ct cv) tipo valor ct cv q
          (numFolhas bd tipo valor cils ct cv m q) 0 bd).2.2⟩ := by
  rw [gerar_eq, if_neg h1]
  have hlen := cicloFolhas_length (dfLimpo bd tipo valor cils ct cv)
    (nibsUnicosDe bd tipo valor cils ct cv) tipo valor ct cv q
    (numFolhas bd tipo valor cils ct cv m q) 0 bd
  have hne : (cicloFolhas (dfLimpo bd tipo valor cils ct cv)
      (nibsUnicosDe bd tipo valor cils ct cv) tipo valor ct cv q
      (numFolhas bd tipo valor cils ct cv m q) 0 bd).1 ≠ [] := by
    intro hh
    rw [← List.length_eq_zero, hlen] at hh
    omega
  rw [if_neg hne]

theorem update_limpar_caracterizacao (bd : List Registro) (p : Registro → Bool)
    (P : Registro → Prop) [DecidablePred P] (hiff : ∀ r, p r = true ↔ P r) :
    List.countP p bd = List.countP (fun r => decide (P r)) bd ∧
    List.Forall₂ (fun antes depois =>
        (P antes → depois = { antes with estado := "" }) ∧
        (¬ P antes → depois = antes))
      bd (bd.map fun r => if p r then { r with estado := "" } else r) := by
  constructor
  · apply List.countP_congr
    intro r _
    rw [hiff r]
    simp
  · apply forall₂_map_self
    intro a
    by_cases hp : p a = true
    · rw [if_pos hp]
      exact ⟨fun _ => rfl, fun hcon => absurd ((hiff a).mp hp) hcon⟩
    · rw [if_neg hp]
      exact ⟨fun hP => absurd ((hiff a).mpr hP) hp, fun _ => rfl⟩

/-- C7: for each of the three reset scopes (`PT`, `LOCALIDADE`, unconditional
`AVULSO`), `resetar_estado` reports success, sets `estado` to the empty
unclaimed sentinel exactly on the rows that are claimed
(`LOWER(TRIM(estado)) = 'prog'`) and satisfy the scope predicate (grouping
value compared case/whitespace-insensitively), leaves every other row
untouched, and returns the affected-row count. -/
theorem C7_reset_escopo (bd : List Registro) (tipo valor : String)
    (h : tipo = "PT" ∨ tipo = "LOCALIDADE" ∨ tipo = "AVULSO") :
    (resetar_estado bd tipo valor).1 = true ∧
    (resetar_estado bd tipo valor).2.1 =
      List.countP (fun r => decide (Reclamado r ∧ EscopoReset tipo valor r)) bd ∧
    List.Forall₂ (fun antes depois =>
        (Reclamado antes ∧ EscopoReset tipo valor antes →
          depois = { antes with estado := "" }) ∧
        (¬ (Reclamado antes ∧ EscopoReset tipo valor antes) → depois = antes))
      bd (resetar_estado bd tipo valor).2.2 := by
  have hne1 : ("PT" : String) ≠ "LOCALIDADE" := by decide
  have hne2 : ("LOCALIDADE" : String) ≠ "PT" := by decide
  have hne3 : ("AVULSO" : String) ≠ "PT" := by decide
  have hne4 : ("AVULSO" : String) ≠ "LOCALIDADE" := by decide
  rcases h with rfl | rfl | rfl
  · have hiff : ∀ r : Registro,
        ((normLower r.estado == "prog") && (normUpper r.pt == normUpper valor)) = true ↔
          (Reclamado r ∧ EscopoReset "PT" valor r) := by
      intro r
      unfold Reclamado EscopoReset
      simp [hne1]
    have hh := update_limpar_caracterizacao bd _ _ hiff
    exact ⟨rfl, hh.1, hh.2⟩
  · have hiff : ∀ r : Registro,
        ((normLower r.estado == "prog") && (normUpper r.localidade == normUpper valor))
            = true ↔
          (Reclamado r ∧ EscopoReset "LOCALIDADE" valor r) := by
      intro r
      unfold Reclamado EscopoReset
      simp [hne2]
    have hh := update_limpar_caracterizacao bd _ _ hiff
    exact ⟨rfl, hh.1, hh.2⟩
  · have hiff : ∀ r : Registro,
        (normLower r.estado == "prog") = true ↔
          (Reclamado r ∧ EscopoReset "AVULSO" valor r) := by
      intro r
      unfold Reclamado EscopoReset
      simp [hne3, hne4]
    have hh := update_limpar_caracterizacao bd _ _ hiff
    exact ⟨rfl, hh.1, hh.2⟩

/-- C7 witness: a two-row store reset by `PT` scope with value `" z "`
(matching `pt = "Z"` after normalisation): the matching claimed row is
cleared, the other claimed row is untouched, the count is 1. -/
theorem C7_reset_escopo_witness :
    (resetar_estado [{ regBase with cil := "A", pt := "Z", estado := "prog" },
        { regBase with cil := "B", pt := "W", estado := "prog" }] "PT" " z ").1 = true ∧
    (resetar_estado [{ regBase with cil := "A", pt := "Z", estado := "prog" },
        { regBase with cil := "B", pt := "W", estado := "prog" }] "PT" " z ").2.1 =
      List.countP (fun r => decide (Reclamado r ∧ EscopoReset "PT" " z " r))
        [{ regBase with cil := "A", pt := "Z", estado := "prog" },
         { regBase with cil := "B", pt := "W", estado := "prog" }] ∧
    List.Forall₂ (fun antes depois =>
        (Reclamado antes ∧ EscopoReset "PT" " z " antes →
          depois = { antes with estado := "" }) ∧
        (¬ (Reclamado antes ∧ EscopoReset "PT" " z " antes) → depois = antes))
      [{ regBase with cil := "A", pt := "Z", estado := "prog" },
       { regBase with cil := "B", pt := "W", estado := "prog" }]
      (resetar_estado [{ regBase with cil := "A", pt := "Z", estado := "prog" },
        { regBase with cil := "B", pt := "W", estado := "prog" }] "PT" " z ").2.2 :=
  C7_reset_escopo
    [{ regBase with cil := "A", pt := "Z", estado := "prog" },
     { regBase with cil := "B", pt := "W", estado := "prog" }] "PT" " z "
    (Or.inl rfl)

/-- C3 counterexample.  First conjunct pair: the previous store holds
`cil = "A1"` with `estado = "PROG"`, which normalises to the claimed sentinel
(second conjunct), so the claim as stated requires the re-imported row to
read `estado = "prog"`; but `importar_csv` compares `old.estado = 'prog'`
raw, so the row comes out with `estado = ""`.  Third conjunct: with one
previously claimed identifier `"B2"` matching two rows of the new snapshot,
the reported count is the affected-row count 2, not the identifier count 1. -/
theorem C3_contraexemplo :
    (importar_csv [{ regBase with cil := "A1", estado := "PROG" }]
        [{ regBase with cil := "A1", estado := "" }]).1 =
      [{ regBase with cil := "A1", estado := "" }] ∧
    normLower "PROG" = "prog" ∧
    (importar_csv [{ regBase with cil := "B2", estado := "prog" }]
        [{ regBase with cil := "B2", estado := "X" },
         { regBase with cil := "B2", estado := "" }]).2 = 2 := by
  refine ⟨?_, ?_, ?_⟩
  · decide
  · decide
  · decide

/-- C3 (amended): after `importar_csv` succeeds, every row of the new
snapshot whose stripped `cil` matches a row of the previous store contents
with `estado` exactly equal to the string `"prog"` (no case/whitespace
normalisation) has `estado = "prog"` regardless of the imported input value;
every other row keeps its normalised input `estado`; and the operation
reports the number of new-snapshot rows (not distinct identifiers) whose
`estado` was forced. -/
theorem C3_preservacao_importacao (bd novo : List Registro) :
    List.Forall₂ (fun n nk =>
        ((∃ antigo ∈ bd, antigo.cil = trim n.cil ∧ antigo.estado = "prog") →
          nk.estado = "prog") ∧
        (¬ (∃ antigo ∈ bd, antigo.cil = trim n.cil ∧ antigo.estado = "prog") →
          nk.estado = lowerS (trim n.estado)))
      novo (importar_csv bd novo).1 ∧
    (importar_csv bd novo).2 =
      List.countP (fun n => decide (∃ antigo ∈ bd, antigo.cil = trim n.cil ∧
        antigo.estado = "prog")) novo := by
  have hiff : ∀ n : Registro, preservadoProg bd (normalizarImportacao n) = true ↔
      (∃ antigo ∈ bd, antigo.cil = trim n.cil ∧ antigo.estado = "prog") := by
    intro n
    unfold preservadoProg
    rw [List.any_eq_true]
    constructor
    · rintro ⟨antigo, hmem, hcond⟩
      simp only [Bool.and_eq_true, beq_iff_eq] at hcond
      exact ⟨antigo, hmem, hcond.1, hcond.2⟩
    · rintro ⟨antigo, hmem, hcil, hest⟩
      refine ⟨antigo, hmem, ?_⟩
      simp only [Bool.and_eq_true, beq_iff_eq]
      exact ⟨hcil, hest⟩
  constructor
  · unfold importar_csv
    dsimp only
    rw [List.map_map]
    apply forall₂_map_self
    intro n
    by_cases hp : preservadoProg bd (normalizarImportacao n) = true
    · constructor
      · intro _
        simp only [Function.comp_apply, if_pos hp]
      · intro hcon
        exact absurd ((hiff n).mp hp) hcon
    · constructor
      · intro hP
        exact absurd ((hiff n).mpr hP) hp
      · intro _
        simp only [Function.comp_apply, if_neg hp]
        rfl
  · unfold importar_csv
    dsimp only
    rw [List.countP_map]
    apply List.countP_congr
    intro n _
    simp only [Function.comp_apply]
    rw [hiff n]
    simp

theorem frame_map_estado (bd : List Registro) (p : Registro → Bool) (s : String) :
    List.Forall₂ MesmoExcetoEstado bd
      (bd.map fun r => if p r then { r with estado := s } else r) := by
  apply forall₂_map_self
  intro a
  by_cases hp : p a = true
  · rw [if_pos hp]
    exact mesmoExcetoEstado_estado a s
  · rw [if_neg hp]
    exact mesmoExcetoEstado_self a

/-- C9: after the initial bulk load, the Claim Committer
(`gerar_folhas_trabalho`) and the Claim Reset (`resetar_estado`) mutate only
the `estado` column: for every row of the store, the row after either
operation agrees with the row before on every column other than `estado`. -/
theorem C9_apenas_estado (bd : List Registro) (tipo valor : String) (m q : Nat)
    (cils : List String) (ct cv : String) (tipoR valorR : String) :
    List.Forall₂ MesmoExcetoEstado bd
      (gerar_folhas_trabalho bd tipo valor m q cils ct cv).bd ∧
    List.Forall₂ MesmoExcetoEstado bd (resetar_estado bd tipoR valorR).2.2 := by
  refine ⟨gerar_frame bd tipo valor m q cils ct cv, ?_⟩
  unfold resetar_estado
  dsimp only
  split_ifs with h1 h2 h3
  · exact frame_map_estado bd _ ""
  · exact frame_map_estado bd _ ""
  · exact frame_map_estado bd _ ""
  · exact forall₂_self MesmoExcetoEstado mesmoExcetoEstado_self bd

/-- C5 counterexample: a generation call whose criterion axis name `"Bogus"`
is not in `MAPEAMENTO_CRITERIOS` is not rejected before querying: the
selection query runs, one folha is emitted and the claim update mutates the
store (reported affected count 1), with the criterion silently dropped. -/
theorem C5_contraexemplo :
    MAPEAMENTO_CRITERIOS "Bogus" = none ∧
    (gerar_folhas_trabalho [{ regBase with cil := "C", pt := "Z", criterio := "X" }]
      "PT" "Z" 1 1 [] "Bogus" "V").folhas =
      some [[{ regBase with cil := "C", pt := "Z", criterio := "X" }]] ∧
    (gerar_folhas_trabalho [{ regBase with cil := "C", pt := "Z", criterio := "X" }]
      "PT" "Z" 1 1 [] "Bogus" "V").totalAtualizados = 1 := by
  refine ⟨rfl, by decide, by decide⟩

/-- C5 (amended): a generation call whose criterion axis name does not
resolve through `MAPEAMENTO_CRITERIOS` silently ignores the criterion
constraint: the call is equal to the same call with no criterion constraint
supplied. -/
theorem C5_criterio_ignorado (bd : List Registro) (tipo valor : String) (m q : Nat)
    (cils : List String) (ct cv : String) (h : MAPEAMENTO_CRITERIOS ct = none) :
    gerar_folhas_trabalho bd tipo valor m q cils ct cv =
      gerar_folhas_trabalho bd tipo valor m q cils "" "" := by
  have hcond : criterioCond ct cv = criterioCond "" "" := by
    funext r
    unfold criterioCond
    by_cases h1 : (ct == "" || cv == "") = true
    · rw [if_pos h1, if_pos (by decide)]
    · rw [if_neg h1, if_pos (by decide), h]
  have hsel : consultaElegiveis bd tipo valor cils ct cv =
      consultaElegiveis bd tipo valor cils "" "" := by
    unfold consultaElegiveis condicaoSelecao
    rw [hcond]
  have hpred : predUpdate tipo valor ct cv = predUpdate tipo valor "" "" := by
    funext nibs r
    unfold predUpdate
    rw [hcond]
  have hciclo : ∀ (df : List Registro) (nibsU : List String) (n i : Nat)
      (b : List Registro),
      cicloFolhas df nibsU tipo valor ct cv q n i b =
        cicloFolhas df nibsU tipo valor "" "" q n i b := by
    intro df nibsU n
    induction n with
    | zero => intro i b; rfl
    | succ n ih =>
      intro i b
      rw [cicloFolhas_succ, cicloFolhas_succ, hpred, ih]
  unfold gerar_folhas_trabalho
  rw [hsel]
  simp only [hciclo]

/-- C5 witness: a concrete call with the unrecognised axis `"Bogus"` equals
the same call with no criterion constraint. -/
theorem C5_criterio_ignorado_witness :
    MAPEAMENTO_CRITERIOS "Bogus" = none ∧
    gerar_folhas_trabalho [{ regBase with cil := "C", pt := "Z", criterio := "X" }]
        "PT" "Z" 1 1 [] "Bogus" "V" =
      gerar_folhas_trabalho [{ regBase with cil := "C", pt := "Z", criterio := "X" }]
        "PT" "Z" 1 1 [] "" "" :=
  ⟨rfl, C5_criterio_ignorado
    [{ regBase with cil := "C", pt := "Z", criterio := "X" }] "PT" "Z" 1 1 [] "Bogus" "V" rfl⟩

/-- C4 counterexample: a single `PT`-scoped call claims two rows that share
one `nib`, reporting affected count 2, while only one distinct sub-unit
(stripped `nib` value) was unclaimed before the call. -/
theorem C4_contraexemplo :
    (executarChamadas
        [{ regBase with cil := "A", nib := "N", pt := "Z" },
         { regBase with cil := "B", nib := "N", pt := "Z" }]
        [⟨"PT", "Z", 1, 1, [], "", ""⟩]).1 = 2 ∧
    (dedupAcum [] ((([{ regBase with cil := "A", nib := "N", pt := "Z" },
          { regBase with cil := "B", nib := "N", pt := "Z" }] :
        List Registro).filter estadoNaoProg).map (fun r => trim r.nib))).length = 1 := by
  refine ⟨by decide, by decide⟩

/-- C4 (amended): for every sequence of `gerar_folhas_trabalho` calls with no
interleaved resets or imports, the sum of the per-call reported affected
counts never exceeds the number of rows that were unclaimed before the first
call — the `estado ≠ 'prog'` guard in every claim update means a row can be
claimed at most once across the whole sequence. -/
theorem C4_exclusividade (bd : List Registro) (calls : List ChamadaGeracao) :
    (executarChamadas bd calls).1 ≤ List.countP estadoNaoProg bd := by
  have h := executarChamadas_count calls bd
  omega

theorem gerar_cils_restantes (bd : List Registro) (tipo valor : String) (m q : Nat)
    (cils : List String) (ct cv : String) :
    (gerar_folhas_trabalho bd tipo valor m q cils ct cv).cilsNaoEncontrados =
      cilsNaoEncontradosCalc tipo cils (consultaElegiveis bd tipo valor cils ct cv) := by
  rw [gerar_eq]
  split_ifs <;> rfl

/-- C8: in `BY_EXPLICIT_LIST` (`AVULSO`) mode with a non-empty identifier
list and a positive `quantidade_nibs` (a zero value would raise
`ZeroDivisionError` in the source and surface the exception path instead),
the call reports exactly those supplied identifiers that matched zero
eligible rows — one single "not found or not eligible" classification — and
reports each such identifier once. -/
theorem C8_avulso_nao_encontrados (bd : List Registro) (valor : String) (m q : Nat)
    (cils : List String) (ct cv : String) (hq : 1 ≤ q) (h : cils ≠ []) :
    (∀ c, c ∈ (gerar_folhas_trabalho bd "AVULSO" valor m q cils ct cv).cilsNaoEncontrados
        ↔ c ∈ cils ∧
          c ∉ (consultaElegiveis bd "AVULSO" valor cils ct cv).map (·.cil)) ∧
    (gerar_folhas_trabalho bd "AVULSO" valor m q cils ct cv).cilsNaoEncontrados.Nodup := by
  rw [gerar_cils_restantes]
  unfold cilsNaoEncontradosCalc
  have hb : (("AVULSO" == "AVULSO") && !cils.isEmpty) = true := by
    simp [h]
  rw [hb]
  rw [if_pos rfl]
  constructor
  · intro c
    rw [mem_dedupAcum]
    rw [List.mem_filter]
    constructor
    · rintro ⟨⟨hc, hnc⟩, _⟩
      refine ⟨hc, ?_⟩
      intro hmem
      rw [Bool.not_eq_true'] at hnc
      have : (((consultaElegiveis bd "AVULSO" valor cils ct cv).map (·.cil)).contains c)
          = true := by
        simpa using hmem
      rw [this] at hnc
      exact absurd hnc (by simp)
    · rintro ⟨hc, hnc⟩
      refine ⟨⟨hc, ?_⟩, by simp⟩
      simpa using hnc
  · exact nodup_dedupAcum _ []

/-- C8 witness: the spec's explicit-list miss scenario — ten supplied
identifiers, six matching eligible unclaimed rows, exactly four reported as
not found or not eligible. -/
theorem C8_avulso_nao_encontrados_witness :
    ((∀ c, c ∈ (gerar_folhas_trabalho bdC8 "AVULSO" "" 5 1 cilsC8 "" "").cilsNaoEncontrados
        ↔ c ∈ cilsC8 ∧
          c ∉ (consultaElegiveis bdC8 "AVULSO" "" cilsC8 "" "").map (·.cil)) ∧
      (gerar_folhas_trabalho bdC8 "AVULSO" "" 5 1 cilsC8 "" "").cilsNaoEncontrados.Nodup) ∧
    cilsC8.length = 10 ∧
    ((consultaElegiveis bdC8 "AVULSO" "" cilsC8 "" "").map (·.cil)).length = 6 ∧
    (gerar_folhas_trabalho bdC8 "AVULSO" "" 5 1 cilsC8 "" "").cilsNaoEncontrados.length = 4 :=
  ⟨C8_avulso_nao_encontrados bdC8 "" 5 1 cilsC8 "" "" (by decide) (by decide),
    by decide, by decide, by decide⟩

/-- C1 counterexample: in `BY_EXPLICIT_LIST` (`AVULSO`) mode the per-batch
claim update is not restricted by the identifier list.  With supplied list
`["A"]`, the row `cil = "B"` — which is not in the list — is also set to
`"prog"`, because it shares the batch `nib` `"N"`. -/
theorem C1_contraexemplo :
    (gerar_folhas_trabalho [{ regBase with cil := "A", nib := "N" },
        { regBase with cil := "B", nib := "N" }] "AVULSO" "" 1 1 ["A"] "" "").bd =
      [{ regBase with cil := "A", nib := "N", estado := "prog" },
       { regBase with cil := "B", nib := "N", estado := "prog" }] ∧
    ("B" : String) ∉ (["A"] : List String) := by
  refine ⟨by decide, by decide⟩

/-- C1 (amended): every row whose `estado` is changed by a
`gerar_folhas_trabalho` call satisfies: it was not already claimed, it
satisfies the same criterion condition as the selection, in the `PT` and
`LOCALIDADE` modes it satisfies the same grouping condition, and its raw
`nib` belongs to the `nib` set of one of the emitted batches; the
`BY_EXPLICIT_LIST` identifier list is not re-applied by the update. -/
theorem C1_predicado_update (bd : List Registro) (tipo valor : String) (m q : Nat)
    (cils : List String) (ct cv : String) :
    List.Forall₂ (fun antes depois => depois ≠ antes →
        (depois = { antes with estado := "prog" } ∧ ¬ Reclamado antes ∧
          CriterioP ct cv antes ∧
          (tipo = "PT" → normUpper antes.pt = normUpper valor) ∧
          (tipo = "LOCALIDADE" → normUpper antes.localidade = normUpper valor) ∧
          ∃ k, k < numFolhas bd tipo valor cils ct cv m q ∧
            antes.nib ∈ nibsDaFolha (nibsUnicosDe bd tipo valor cils ct cv) q k))
      bd (gerar_folhas_trabalho bd tipo valor m q cils ct cv).bd := by
  refine forall₂_imp_right ?_ (gerar_mudanca bd tipo valor m q cils ct cv)
  intro a b hab hne
  rcases hab with rfl | ⟨rfl, k, hk, hpred⟩
  · exact absurd rfl hne
  · rcases (predUpdate_iff _ _ _ _ _ _).mp hpred with ⟨hnib, hest, hcrit, hpt, hloc⟩
    exact ⟨rfl, hest, hcrit, hpt, hloc, k, hk, hnib⟩

/-- C6: the Eligibility Filter output is a permutation of the rows passing
the `WHERE` clause; a row is in the output exactly when it is in the store,
is not claimed, satisfies the grouping predicate of the active mode
(identifier-list membership for `AVULSO`, otherwise normalised equality of
the grouping axis when a value was supplied) and satisfies a present
well-formed Criterion Constraint; and the output is ordered primarily by
`seq` with blank values last, secondarily by `nib` with blank values last. -/
theorem C6_filtro_elegibilidade (bd : List Registro) (tipo valor : String)
    (cils : List String) (ct cv : String)
    (h : MAPEAMENTO_CRITERIOS ct ≠ none ∨ ct = "" ∨ cv = "") :
    (consultaElegiveis bd tipo valor cils ct cv).Perm
        (bd.filter (condicaoSelecao tipo valor cils ct cv)) ∧
    (∀ r, r ∈ consultaElegiveis bd tipo valor cils ct cv ↔
        r ∈ bd ∧ ¬ Reclamado r ∧ CriterioP ct cv r ∧ GrupoSelecaoP tipo valor cils r) ∧
    (consultaElegiveis bd tipo valor cils ct cv).Pairwise OrdemFolha := by
  refine ⟨consultaElegiveis_perm bd tipo valor cils ct cv, ?_,
    consultaElegiveis_ordenada bd tipo valor cils ct cv⟩
  intro r
  rw [mem_consultaElegiveis, condicaoSelecao_iff]

/-- C6 witness: a concrete invocation with the recognised axis `"Criterio"`
and value `"SUSP"` on a three-row store. -/
theorem C6_filtro_elegibilidade_witness :
    (consultaElegiveis [{ regBase with cil := "1", pt := "Z", criterio := "SUSP" },
        { regBase with cil := "2", pt := "Z", criterio := "OUTRO" },
        { regBase with cil := "3", pt := "Z", criterio := "SUSP", estado := "prog" }]
        "PT" "Z" [] "Criterio" "SUSP").Perm
      (([{ regBase with cil := "1", pt := "Z", criterio := "SUSP" },
        { regBase with cil := "2", pt := "Z", criterio := "OUTRO" },
        { regBase with cil := "3", pt := "Z", criterio := "SUSP", estado := "prog" }] :
        List Registro).filter (condicaoSelecao "PT" "Z" [] "Criterio" "SUSP")) ∧
    (∀ r, r ∈ consultaElegiveis [{ regBase with cil := "1", pt := "Z", criterio := "SUSP" },
        { regBase with cil := "2", pt := "Z", criterio := "OUTRO" },
        { regBase with cil := "3", pt := "Z", criterio := "SUSP", estado := "prog" }]
        "PT" "Z" [] "Criterio" "SUSP" ↔
      r ∈ [{ regBase with cil := "1", pt := "Z", criterio := "SUSP" },
        { regBase with cil := "2", pt := "Z", criterio := "OUTRO" },
        { regBase with cil := "3", pt := "Z", criterio := "SUSP", estado := "prog" }] ∧
        ¬ Reclamado r ∧ CriterioP "Criterio" "SUSP" r ∧
        GrupoSelecaoP "PT" "Z" [] r) ∧
    (consultaElegiveis [{ regBase with cil := "1", pt := "Z", criterio := "SUSP" },
        { regBase with cil := "2", pt := "Z", criterio := "OUTRO" },
        { regBase with cil := "3", pt := "Z", criterio := "SUSP", estado := "prog" }]
        "PT" "Z" [] "Criterio" "SUSP").Pairwise OrdemFolha :=
  C6_filtro_elegibilidade
    [{ regBase with cil := "1", pt := "Z", criterio := "SUSP" },
     { regBase with cil := "2", pt := "Z", criterio := "OUTRO" },
     { regBase with cil := "3", pt := "Z", criterio := "SUSP", estado := "prog" }]
    "PT" "Z" [] "Criterio" "SUSP" (Or.inl (by decide))

/-- C2 counterexample.  Scenario 1: a single eligible row with a blank `nib`
— the claim's count of distinct non-blank `nib` values is `G = 0`, so the
claim requires zero batches and a nothing-generated outcome, yet the code
counts the blank value as a group and emits one folha containing the row.
Scenario 2: two sub-units `"NA"` and `"NB"` with `groupsPerBatch = 1` and
`requestedMaxBatches = 1` — the eligible sub-unit `"NB"` appears in no
emitted batch, refuting "every sub-unit appears in exactly one batch". -/
theorem C2_contraexemplo :
    ((gerar_folhas_trabalho [{ regBase with cil := "C", pt := "Z" }]
        "PT" "Z" 10 2 [] "" "").folhas =
      some [[{ regBase with cil := "C", pt := "Z" }]] ∧
      trim ({ regBase with cil := "C", pt := "Z" } : Registro).nib = "") ∧
    ((gerar_folhas_trabalho [{ regBase with cil := "A", nib := "NA", pt := "Z" },
          { regBase with cil := "B", nib := "NB", pt := "Z" }] "PT" "Z" 1 1 [] "" ""
        ).folhas = some [[{ regBase with cil := "A", nib := "NA", pt := "Z" }]] ∧
      { regBase with cil := "B", nib := "NB", pt := "Z" } ∈
        consultaElegiveis [{ regBase with cil := "A", nib := "NA", pt := "Z" },
          { regBase with cil := "B", nib := "NB", pt := "Z" }] "PT" "Z" [] "" "") := by
  refine ⟨⟨by decide, by decide⟩, by decide, by decide⟩

/-- C2 (amended): let `G` be the number of distinct stripped `nib` values of
the ordered eligible set in first-seen order, with the blank value counted
as a group like any other.  If the eligible set is empty, or
`requestedMaxBatches = 0`, no folhas are produced (the nothing-generated
outcome) and the store is untouched.  Otherwise exactly
`min(requestedMaxBatches, ceil(G / groupsPerBatch))` folhas are produced;
folha `k` (0-based) holds exactly the eligible rows whose stripped `nib`
lies in the `k`-th contiguous slice of size `groupsPerBatch` of the
distinct-`nib` sequence; every eligible row's `nib` is one of the `G`
sub-units; each sub-unit appears in at most one slice; and whenever
`requestedMaxBatches ≥ ceil(G / groupsPerBatch)` every sub-unit appears in
exactly one emitted folha slice. -/
theorem C2_particao (bd : List Registro) (tipo valor : String) (m q : Nat)
    (cils : List String) (ct cv : String) (hq : 1 ≤ q) :
    (consultaElegiveis bd tipo valor cils ct cv = [] →
      (gerar_folhas_trabalho bd tipo valor m q cils ct cv).folhas = none ∧
      (gerar_folhas_trabalho bd tipo valor m q cils ct cv).bd = bd) ∧
    (m = 0 →
      (gerar_folhas_trabalho bd tipo valor m q cils ct cv).folhas = none) ∧
    (consultaElegiveis bd tipo valor cils ct cv ≠ [] → 0 < m →
      ∃ fs, (gerar_folhas_trabalho bd tipo valor m q cils ct cv).folhas = some fs ∧
        fs.length =
          min m (((nibsUnicosDe bd tipo valor cils ct cv).length + q - 1) / q) ∧
        (∀ k, k < fs.length → fs.get? k =
          some ((dfLimpo bd tipo valor cils ct cv).filter
            (fun r => (nibsDaFolha (nibsUnicosDe bd tipo valor cils ct cv) q k).contains
              r.nib))) ∧
        (∀ r ∈ dfLimpo bd tipo valor cils ct cv,
          r.nib ∈ nibsUnicosDe bd tipo valor cils ct cv) ∧
        (∀ x : String, ∀ k1 k2 : Nat,
          x ∈ nibsDaFolha (nibsUnicosDe bd tipo valor cils ct cv) q k1 →
          x ∈ nibsDaFolha (nibsUnicosDe bd tipo valor cils ct cv) q k2 → k1 = k2) ∧
        ((((nibsUnicosDe bd tipo valor cils ct cv).length + q - 1) / q ≤ m →
          ∀ x ∈ nibsUnicosDe bd tipo valor cils ct cv,
            ∃ k, k < fs.length ∧
              x ∈ nibsDaFolha (nibsUnicosDe bd tipo valor cils ct cv) q k))) := by
  refine ⟨?_, ?_, ?_⟩
  · intro h
    rw [gerar_folhas_df_vazio h]
    exact ⟨rfl, rfl⟩
  · intro hm
    subst hm
    by_cases h1 : consultaElegiveis bd tipo valor cils ct cv = []
    · rw [gerar_folhas_df_vazio h1]
    · rw [gerar_folhas_zero h1 (by simp [numFolhas])]
  · intro h1 hm
    have hdfn : dfLimpo bd tipo valor cils ct cv ≠ [] := by
      unfold dfLimpo
      simp [h1]
    have hnibs : nibsUnicosDe bd tipo valor cils ct cv ≠ [] := by
      unfold nibsUnicosDe
      apply dedupAcum_ne_nil
      simp [hdfn]
    have hlen1 : 1 ≤ (nibsUnicosDe bd tipo valor cils ct cv).length :=
      List.length_pos.mpr hnibs
    have hposs := folhasPossiveis_pos hq hlen1
    have hpos : 0 < numFolhas bd tipo valor cils ct cv m q := by
      unfold numFolhas
      omega
    rw [gerar_folhas_pos h1 hpos]
    dsimp only
    have hflen := cicloFolhas_length (dfLimpo bd tipo valor cils ct cv)
      (nibsUnicosDe bd tipo valor cils ct cv) tipo valor ct cv q
      (numFolhas bd tipo valor cils ct cv m q) 0 bd
    refine ⟨_, rfl, ?_, ?_, ?_, ?_, ?_⟩
    · rw [hflen]
      rfl
    · intro k hk
      rw [hflen] at hk
      have := cicloFolhas_get? (dfLimpo bd tipo valor cils ct cv)
        (nibsUnicosDe bd tipo valor cils ct cv) tipo valor ct cv q
        (numFolhas bd tipo valor cils ct cv m q) 0 k bd hk
      simpa using this
    · intro r hr
      unfold nibsUnicosDe
      apply (mem_dedupAcum _ _ _).mpr
      refine ⟨?_, by simp⟩
      exact List.mem_map_of_mem _ hr
    · intro x k1 k2 hx1 hx2
      by_contra hne
      exact nibsDaFolha_disjunta (nodup_dedupAcum _ []) hne hx1 hx2
    · intro hBm x hx
      rcases List.mem_iff_getElem.mp hx with ⟨j, hj, hget⟩
      have hdiv := div_lt_folhasPossiveis hq hj
      refine ⟨j / q, ?_, ?_⟩
      · rw [hflen]
        unfold numFolhas
        omega
      · have := nibsDaFolha_cobre hq hj
        rwa [hget] at this

/-- C2 witness: three sub-units, `groupsPerBatch = 2`, `maxBatches = 10` on
a concrete store. -/
theorem C2_particao_witness :
    (consultaElegiveis bdC2 "PT" "Z" [] "" "" = [] →
      (gerar_folhas_trabalho bdC2 "PT" "Z" 10 2 [] "" "").folhas = none ∧
      (gerar_folhas_trabalho bdC2 "PT" "Z" 10 2 [] "" "").bd = bdC2) ∧
    ((10 : Nat) = 0 →
      (gerar_folhas_trabalho bdC2 "PT" "Z" 10 2 [] "" "").folhas = none) ∧
    (consultaElegiveis bdC2 "PT" "Z" [] "" "" ≠ [] → (0 : Nat) < 10 →
      ∃ fs, (gerar_folhas_trabalho bdC2 "PT" "Z" 10 2 [] "" "").folhas = some fs ∧
        fs.length =
          min 10 (((nibsUnicosDe bdC2 "PT" "Z" [] "" "").length + 2 - 1) / 2) ∧
        (∀ k, k < fs.length → fs.get? k =
          some ((dfLimpo bdC2 "PT" "Z" [] "" "").filter
            (fun r => (nibsDaFolha (nibsUnicosDe bdC2 "PT" "Z" [] "" "") 2 k).contains
              r.nib))) ∧
        (∀ r ∈ dfLimpo bdC2 "PT" "Z" [] "" "",
          r.nib ∈ nibsUnicosDe bdC2 "PT" "Z" [] "" "") ∧
        (∀ x : String, ∀ k1 k2 : Nat,
          x ∈ nibsDaFolha (nibsUnicosDe bdC2 "PT" "Z" [] "" "") 2 k1 →
          x ∈ nibsDaFolha (nibsUnicosDe bdC2 "PT" "Z" [] "" "") 2 k2 → k1 = k2) ∧
        ((((nibsUnicosDe bdC2 "PT" "Z" [] "" "").length + 2 - 1) / 2 ≤ 10 →
          ∀ x ∈ nibsUnicosDe bdC2 "PT" "Z" [] "" "",
            ∃ k, k < fs.length ∧
              x ∈ nibsDaFolha (nibsUnicosDe bdC2 "PT" "Z" [] "" "") 2 k))) :=
  C2_particao bdC2 "PT" "Z" 10 2 [] "" "" (by decide)

theorem cicloFolhasTx_none (df : List Registro) (nibsU : List String)
    (tipo valor ct cv : String) (q : Nat) :
    ∀ (n i : Nat) (b : List Registro),
      cicloFolhasTx none df nibsU tipo valor ct cv q n i b =
        some (cicloFolhas df nibsU tipo valor ct cv q n i b)
  | 0, _, _ => rfl
  | Nat.succ n, i, b => by
    show (if ((none : Option Nat) == some (i + 1)) = true then none else _) = _
    rw [if_neg (by simp : ¬ (((none : Option Nat) == some (i + 1)) = true))]
    rw [cicloFolhas_succ]
    dsimp only
    rw [cicloFolhasTx_none df nibsU tipo valor ct cv q n (i + 1) _]

theorem gerar_tx_eq (falhaEm : Option Nat) (bd : List Registro) (tipo valor : String)
    (m q : Nat) (cils : List String) (ct cv : String) :
    gerar_folhas_trabalho_tx falhaEm bd tipo valor m q cils ct cv =
      (if falhaEm = some 0 then ⟨none, [], 0, bd, true⟩
      else if consultaElegiveis bd tipo valor cils ct cv = [] then
        ⟨none, cilsNaoEncontradosCalc tipo cils (consultaElegiveis bd tipo valor cils ct cv),
          0, bd, false⟩
      else
        match cicloFolhasTx falhaEm (dfLimpo bd tipo valor cils ct cv)
            (nibsUnicosDe bd tipo valor cils ct cv) tipo valor ct cv q
            (numFolhas bd tipo valor cils ct cv m q) 0 bd with
        | none => ⟨none, [], 0, bd, true⟩
        | some resultado =>
          if resultado.1 = [] then
            ⟨none,
              cilsNaoEncontradosCalc tipo cils (consultaElegiveis bd tipo valor cils ct cv),
              resultado.2.1, resultado.2.2, false⟩
          else
            ⟨some resultado.1,
              cilsNaoEncontradosCalc tipo cils (consultaElegiveis bd tipo valor cils ct cv),
              resultado.2.1, resultado.2.2, false⟩) := by
  simp only [gerar_folhas_trabalho_tx, numFolhas, nibsUnicosDe, dfLimpo]
  by_cases h0 : falhaEm = some 0
  · rw [if_pos (by simp [h0] : (falhaEm == some 0) = true), if_pos h0]
  · rw [if_neg (by simp [h0] : ¬ ((falhaEm == some 0) = true)), if_neg h0]
    by_cases h1 : consultaElegiveis bd tipo valor cils ct cv = []
    · simp [h1]
    · have hmap : ((consultaElegiveis bd tipo valor cils ct cv).map limparNib).map (·.nib)
          ≠ [] := by
        simp [h1]
      have hnibs := dedupAcum_ne_nil hmap
      have hlen : (dedupAcum []
          (((consultaElegiveis bd tipo valor cils ct cv).map limparNib).map (·.nib))).length
          ≠ 0 := by
        simpa [List.length_eq_zero] using hnibs
      rw [if_neg (show ¬ ((consultaElegiveis bd tipo valor cils ct cv).isEmpty = true) by
        simpa [List.isEmpty_iff] using h1)]
      rw [if_neg (show ¬ (((dedupAcum [] (((consultaElegiveis bd tipo valor cils ct
        cv).map limparNib).map (·.nib))).length == 0) = true) by simpa using hlen)]
      rw [if_neg h1]
      simp only [List.isEmpty_iff]

/-- C10: all claim updates of one generation call commit together at the end
of the call.  In the fallible model (statement 0 is the read, statement
`k + 1` the update of folha `k`), any aborted call leaves the stored table
exactly as it was and returns the failure outcome — no folhas, an empty
unmatched-identifier list and a zero count; and a call with no injected
failure coincides with the infallible embedding.  Atomicity therefore holds
per call, not merely per batch. -/
theorem C10_transacao (falhaEm : Option Nat) (bd : List Registro)
    (tipo valor : String) (m q : Nat) (cils : List String) (ct cv : String) :
    ((gerar_folhas_trabalho_tx falhaEm bd tipo valor m q cils ct cv).abortado = true →
      (gerar_folhas_trabalho_tx falhaEm bd tipo valor m q cils ct cv).bd = bd ∧
      (gerar_folhas_trabalho_tx falhaEm bd tipo valor m q cils ct cv).folhas = none ∧
      (gerar_folhas_trabalho_tx falhaEm bd tipo valor m q cils ct cv).cilsNaoEncontrados
        = [] ∧
      (gerar_folhas_trabalho_tx falhaEm bd tipo valor m q cils ct cv).totalAtualizados
        = 0) ∧
    (falhaEm = none →
      gerar_folhas_trabalho_tx falhaEm bd tipo valor m q cils ct cv =
        ⟨(gerar_folhas_trabalho bd tipo valor m q cils ct cv).folhas,
          (gerar_folhas_trabalho bd tipo valor m q cils ct cv).cilsNaoEncontrados,
          (gerar_folhas_trabalho bd tipo valor m q cils ct cv).totalAtualizados,
          (gerar_folhas_trabalho bd tipo valor m q cils ct cv).bd, false⟩) := by
  constructor
  · intro hab
    rw [gerar_tx_eq] at hab ⊢
    by_cases h0 : falhaEm = some 0
    · rw [if_pos h0] at hab ⊢
      exact ⟨rfl, rfl, rfl, rfl⟩
    · rw [if_neg h0] at hab ⊢
      by_cases h1 : consultaElegiveis bd tipo valor cils ct cv = []
      · rw [if_pos h1] at hab
        exact absurd hab (by simp)
      · rw [if_neg h1] at hab ⊢
        cases hcx : cicloFolhasTx falhaEm (dfLimpo bd tipo valor cils ct cv)
            (nibsUnicosDe bd tipo valor cils ct cv) tipo valor ct cv q
            (numFolhas bd tipo valor cils ct cv m q) 0 bd with
        | none =>
          exact ⟨rfl, rfl, rfl, rfl⟩
        | some resultado =>
          rw [hcx] at hab
          dsimp only at hab
          by_cases h2 : resultado.1 = []
          · rw [if_pos h2] at hab
            exact absurd hab (by simp)
          · rw [if_neg h2] at hab
            exact absurd hab (by simp)
  · intro h0
    subst h0
    rw [gerar_tx_eq, gerar_eq]
    rw [if_neg (by simp : ¬ ((none : Option Nat) = some 0))]
    rw [cicloFolhasTx_none]
    by_cases h1 : consultaElegiveis bd tipo valor cils ct cv = []
    · rw [if_pos h1, if_pos h1]
    · rw [if_neg h1, if_neg h1]
      dsimp only
      by_cases h2 : (cicloFolhas (dfLimpo bd tipo valor cils ct cv)
          (nibsUnicosDe bd tipo valor cils ct cv) tipo valor ct cv q
          (numFolhas bd tipo valor cils ct cv m q) 0 bd).1 = []
      · simp only [if_pos h2]
      · simp only [if_neg h2]

/-- C10 witness: a concrete run whose first claim update raises leaves the
two-row store untouched and returns the failure outcome. -/
theorem C10_transacao_witness :
    (gerar_folhas_trabalho_tx (some 1) bdC10 "PT" "Z" 1 1 [] "" "").bd = bdC10 ∧
    (gerar_folhas_trabalho_tx (some 1) bdC10 "PT" "Z" 1 1 [] "" "").folhas = none ∧
    (gerar_folhas_trabalho_tx (some 1) bdC10 "PT" "Z" 1 1 [] "" "").cilsNaoEncontrados
      = [] ∧
    (gerar_folhas_trabalho_tx (some 1) bdC10 "PT" "Z" 1 1 [] "" "").totalAtualizados = 0 :=
  (C10_transacao (some 1) bdC10 "PT" "Z" 1 1 [] "" "").1 (by decide)
